import Mathlib

/-!
# Continuum materials: Voigt tensors and isotropic elasticity

A shallow embedding of `src/physics/_ChContinuumMaterial.h`.

The C++ classes are templates over the scalar type (`template <class Real = double>`).
The embedding keeps that parameter: every definition is generic in a linearly ordered
field `R`, so the arithmetic is exact.  Instantiating `R` with `ℝ` gives the
real-number reading of the formulas, instantiating it with `ℚ` gives definitions
that can be evaluated.  The C library function `sqrt` is passed as an argument
(`Real.sqrt` in the theorems).

Methods that write through a reference (`ConvertToMatrix (mdest)`,
`GetDeviatoricPart (mdeviatoric)`, `ComputeElasticStress (mstress, ...)`) take the
previous content of the destination as an argument and return its new content.
-/

namespace chrono

/-! ## 3×3 matrices -/

/-- Modelled from the spec: `ChMatrix33` is declared in `core/ChMath.h`, which is not
part of the sources.  The spec describes it as the 3×3 matrix representation used by
the surrounding solver layer; `m(i,j)` reads the entry in row `i`, column `j`. -/
abbrev ChMatrix33 (R : Type) : Type := Fin 3 → Fin 3 → R

namespace ChMatrix33

variable {R : Type}

/-- The assignment `m(i,j) = x`: only the entry in row `i`, column `j` changes. -/
def set (m : ChMatrix33 R) (i j : Fin 3) (x : R) : ChMatrix33 R :=
  fun a b => if a = i ∧ b = j then x else m a b

end ChMatrix33

/-- Modelled from the spec: `ChMax` is declared in `core/ChMath.h`, which is not part
of the sources.  The spec reads `ChMax(0.0, x)` as `max(0, x)`. -/
def ChMax {R : Type} [LinearOrder R] (a b : R) : R := max a b

/-! ## Voigt tensors -/

/-- Class `ChVoightTensor<Real>`: the six components of a symmetric tensor, stored in
the order `XX, YY, ZZ, XY, XZ, YZ` (elements 0 to 5 of a 6×1 column). -/
structure ChVoightTensor (R : Type) where
  XX : R
  YY : R
  ZZ : R
  XY : R
  XZ : R
  YZ : R
  deriving DecidableEq

/-- Class `ChStressTensor<Real>`: a Voigt tensor with no additional members. -/
abbrev ChStressTensor (R : Type) : Type := ChVoightTensor R

/-- Class `ChStrainTensor<Real>`: a Voigt tensor with no additional members. -/
abbrev ChStrainTensor (R : Type) : Type := ChVoightTensor R

namespace ChVoightTensor

variable {R : Type}

/-- Method `ConvertFromMatrix (msource)`: six assignments to the components of `this`. -/
def ConvertFromMatrix (self : ChVoightTensor R) (msource : ChMatrix33 R) :
    ChVoightTensor R :=
  let t := { self with XX := msource 0 0 }
  let t := { t with YY := msource 1 1 }
  let t := { t with ZZ := msource 2 2 }
  let t := { t with XY := msource 0 1 }
  let t := { t with XZ := msource 0 2 }
  { t with YZ := msource 1 2 }

/-- Method `ConvertToMatrix (mdest)`: nine assignments to the entries of `mdest`. -/
def ConvertToMatrix (self : ChVoightTensor R) (mdest : ChMatrix33 R) : ChMatrix33 R :=
  let m := mdest.set 0 0 self.XX
  let m := m.set 1 1 self.YY
  let m := m.set 2 2 self.ZZ
  let m := m.set 0 1 self.XY
  let m := m.set 0 2 self.XZ
  let m := m.set 1 2 self.YZ
  let m := m.set 1 0 self.XY
  let m := m.set 2 0 self.XZ
  m.set 2 1 self.YZ

variable [LinearOrderedField R]

/-- Method `GetVolumetricPart`: the trace `XX + YY + ZZ`. -/
def GetVolumetricPart (self : ChVoightTensor R) : R :=
  self.XX + self.YY + self.ZZ

/-- Method `GetDeviatoricPart (mdeviatoric)`: `mdeviatoric` becomes a copy of `this`,
then a third of the trace is subtracted from its three normal components. -/
def GetDeviatoricPart (self : ChVoightTensor R) (_mdeviatoric : ChVoightTensor R) :
    ChVoightTensor R :=
  let mM := self.GetVolumetricPart / 3.0
  let d := self
  let d := { d with XX := d.XX - mM }
  let d := { d with YY := d.YY - mM }
  { d with ZZ := d.ZZ - mM }

/-- Method `GetInvariant_I1`. -/
def GetInvariant_I1 (self : ChVoightTensor R) : R :=
  self.XX + self.YY + self.ZZ

/-- Method `GetInvariant_I2`. -/
def GetInvariant_I2 (self : ChVoightTensor R) : R :=
  self.XX * self.YY + self.YY * self.ZZ + self.XX * self.ZZ
    - self.XY * self.XY - self.YZ * self.YZ - self.XZ * self.XZ

/-- Method `GetInvariant_I3`. -/
def GetInvariant_I3 (self : ChVoightTensor R) : R :=
  self.XX * self.YY * self.ZZ + 2 * self.XY * self.YZ * self.XZ
    - self.XY * self.XY * self.ZZ - self.YZ * self.YZ * self.XX
    - self.XZ * self.XZ * self.YY

/-- Method `GetInvariant_J1`: the constant 0. -/
def GetInvariant_J1 (_self : ChVoightTensor R) : R := 0

/-- Method `GetInvariant_J2`: `ChMax (0.0, pow (I1, 2) / 3.0 - I2)`. -/
def GetInvariant_J2 (self : ChVoightTensor R) : R :=
  ChMax 0.0 (self.GetInvariant_I1 ^ 2 / 3.0 - self.GetInvariant_I2)

/-- Method `GetInvariant_J3`. -/
def GetInvariant_J3 (self : ChVoightTensor R) : R :=
  self.GetInvariant_I1 ^ 3 * (2. / 27.)
    - self.GetInvariant_I1 * self.GetInvariant_I2 * (1. / 3.)
    + self.GetInvariant_I3

/-- Method `GetEquivalentVonMises`; `sqrt` is the square root of the C library, and
`pow (x, 2.)` is the square `x ^ 2`. -/
def GetEquivalentVonMises (sqrt : R → R) (self : ChVoightTensor R) : R :=
  sqrt (0.5 * ((self.XX - self.YY) ^ 2 + (self.YY - self.ZZ) ^ 2
      + (self.ZZ - self.XX) ^ 2)
    + 3.0 * (self.XY * self.XY + self.XZ * self.XZ + self.YZ * self.YZ))

end ChVoightTensor

/-! ## Materials -/

/-- Class `ChContinuumMaterial`: the base class of all continuum materials. -/
structure ChContinuumMaterial (R : Type) where
  density : R
  deriving DecidableEq

namespace ChContinuumMaterial

variable {R : Type}

/-- Method `Set_density`: the body is the single assignment `density = m_density`. -/
def Set_density (self : ChContinuumMaterial R) (m_density : R) : ChContinuumMaterial R :=
  { self with density := m_density }

/-- Method `Get_density`. -/
def Get_density (self : ChContinuumMaterial R) : R := self.density

end ChContinuumMaterial

/-- Class `ChContinuumElastic`: isotropic Hookean material, with the Young modulus `E`,
the Poisson ratio `v`, the shear modulus `G` and the first Lamé parameter `l`. -/
structure ChContinuumElastic (R : Type) extends ChContinuumMaterial R where
  E : R
  v : R
  G : R
  l : R
  deriving DecidableEq

namespace ChContinuumElastic

variable {R : Type} [LinearOrderedField R]

/-- Method `Get_E`. -/
def Get_E (self : ChContinuumElastic R) : R := self.E

/-- Method `Get_v`. -/
def Get_v (self : ChContinuumElastic R) : R := self.v

/-- Method `Get_G`. -/
def Get_G (self : ChContinuumElastic R) : R := self.G

/-- Method `Get_l`. -/
def Get_l (self : ChContinuumElastic R) : R := self.l

/-- Method `Get_BulkModulus`: `E/(3.*(1.-2.*v))`. -/
def Get_BulkModulus (self : ChContinuumElastic R) : R :=
  self.E / (3. * (1. - 2. * self.v))

/-- Method `Get_WaveModulus`: `E*((1.-v)/(1.+v)*(1.-2.*v))`, with the grouping of the
C++ expression (`/` and `*` associate to the left). -/
def Get_WaveModulus (self : ChContinuumElastic R) : R :=
  self.E * ((1. - self.v) / (1. + self.v) * (1. - 2. * self.v))

/-- Method `ComputeElasticStress (mstress, mstrain)`: six assignments to the components
of `mstress`. -/
def ComputeElasticStress (self : ChContinuumElastic R) (mstress : ChStressTensor R)
    (mstrain : ChStrainTensor R) : ChStressTensor R :=
  let s := { mstress with
    XX := mstrain.XX * (self.l + 2 * self.G) + mstrain.YY * self.l + mstrain.ZZ * self.l }
  let s := { s with
    YY := mstrain.XX * self.l + mstrain.YY * (self.l + 2 * self.G) + mstrain.ZZ * self.l }
  let s := { s with
    ZZ := mstrain.XX * self.l + mstrain.YY * self.l + mstrain.ZZ * (self.l + 2 * self.G) }
  let s := { s with XY := mstrain.XY * 2 * self.G }
  let s := { s with XZ := mstrain.XZ * 2 * self.G }
  { s with YZ := mstrain.YZ * 2 * self.G }

/-- Method `ComputeElasticStrain (mstrain, mstress)`: six assignments to the components
of `mstrain`. -/
def ComputeElasticStrain (self : ChContinuumElastic R) (mstrain : ChStrainTensor R)
    (mstress : ChStressTensor R) : ChStrainTensor R :=
  let invE := 1. / self.E
  let invhG := 0.5 / self.G
  let e := { mstrain with
    XX := invE * (mstress.XX - mstress.YY * self.v - mstress.ZZ * self.v) }
  let e := { e with
    YY := invE * (-mstress.XX * self.v + mstress.YY - mstress.ZZ * self.v) }
  let e := { e with
    ZZ := invE * (-mstress.XX * self.v - mstress.YY * self.v + mstress.ZZ) }
  let e := { e with XY := mstress.XY * invhG }
  let e := { e with XZ := mstress.XZ * invhG }
  { e with YZ := mstress.YZ * invhG }

/-- Modelled from the spec: the relations that the data model states between the four
elastic constants, `G = E/(2(1+v))` and `l = E·v/((1+v)(1−2v))`. -/
def Consistent (self : ChContinuumElastic R) : Prop :=
  self.G = self.E / (2 * (1 + self.v)) ∧
    self.l = self.E * self.v / ((1 + self.v) * (1 - 2 * self.v))

instance (self : ChContinuumElastic R) : Decidable self.Consistent := by
  unfold Consistent
  infer_instance

/-- Modelled from the spec: `Set_E` is declared in the header and defined in a source
file that is not part of the sources.  The spec has the setter reject `E ≤ 0` and leave
the state unchanged, and otherwise store `E` and recompute `G` and `l` from `E` and `v`.
The result is the pair of the acceptance flag and the state after the call. -/
def Set_E (self : ChContinuumElastic R) (m_E : R) : Bool × ChContinuumElastic R :=
  if m_E ≤ 0 then (false, self)
  else
    let m := { self with E := m_E }
    let m := { m with G := m.E / (2 * (1 + m.v)) }
    let m := { m with l := m.E * m.v / ((1 + m.v) * (1 - 2 * m.v)) }
    (true, m)

/-- Modelled from the spec: `Set_v` is declared in the header and defined in a source
file that is not part of the sources.  The spec has the setter reject `v = 0.5` and
`v = −1` and leave the state unchanged, and otherwise store `v` and recompute `G` and `l`
from `E` and `v`.  The result is the pair of the acceptance flag and the state after the
call. -/
def Set_v (self : ChContinuumElastic R) (m_v : R) : Bool × ChContinuumElastic R :=
  if m_v = 0.5 ∨ m_v = -1 then (false, self)
  else
    let m := { self with v := m_v }
    let m := { m with G := m.E / (2 * (1 + m.v)) }
    let m := { m with l := m.E * m.v / ((1 + m.v) * (1 - 2 * m.v)) }
    (true, m)

/-- Modelled from the spec: `Set_G` is declared in the header and defined in a source
file that is not part of the sources.  The spec has invalid elastic constants fail at the
setter, which leaves the state unchanged: the setter rejects `G ≤ 0`, and it rejects a `G`
whose back-solved Poisson ratio `E/(2G) − 1` is `0.5` or `−1`, the two values that
`Set_v` rejects.  Otherwise it stores `G`, back-solves `v` from `G` and `E`, and
recomputes `l`.  The result is the pair of the acceptance flag and the state after the
call. -/
def Set_G (self : ChContinuumElastic R) (m_G : R) : Bool × ChContinuumElastic R :=
  if m_G ≤ 0 then (false, self)
  else if self.E / (2 * m_G) - 1 = 0.5 ∨ self.E / (2 * m_G) - 1 = -1 then (false, self)
  else
    let m := { self with G := m_G }
    let m := { m with v := m.E / (2 * m.G) - 1 }
    let m := { m with l := m.E * m.v / ((1 + m.v) * (1 - 2 * m.v)) }
    (true, m)

end ChContinuumElastic

/-- A call of one of the three setters of the elastic constants, with its argument. -/
inductive SetterCall (R : Type) where
  | Set_E (m_E : R)
  | Set_v (m_v : R)
  | Set_G (m_G : R)
  deriving DecidableEq

namespace ChContinuumElastic

variable {R : Type} [LinearOrderedField R]

/-- The material after one setter call, accepted or rejected. -/
def call (self : ChContinuumElastic R) : SetterCall R → ChContinuumElastic R
  | SetterCall.Set_E x => (self.Set_E x).2
  | SetterCall.Set_v x => (self.Set_v x).2
  | SetterCall.Set_G x => (self.Set_G x).2

/-- The material reached from `self` through a sequence of setter calls, made from left
to right. -/
def run (self : ChContinuumElastic R) (calls : List (SetterCall R)) : ChContinuumElastic R :=
  calls.foldl call self

end ChContinuumElastic

/-- Class `ChContinuumElastoplastic`: the interface of the elastic materials that can
undergo plastic flow.  It adds pure virtual methods and no data member. -/
structure ChContinuumElastoplastic (R : Type) extends ChContinuumElastic R
  deriving DecidableEq

/-- Class `ChContinuumPlasticVonMises`: elastoplastic material with a von Mises yield
limit. -/
structure ChContinuumPlasticVonMises (R : Type) extends ChContinuumElastoplastic R where
  elastic_yeld : R
  plastic_yeld : R
  flow_rate : R
  deriving DecidableEq

namespace ChContinuumPlasticVonMises

variable {R : Type}

/-- Method `Set_density`, inherited from `ChContinuumMaterial`. -/
def Set_density (self : ChContinuumPlasticVonMises R) (m_density : R) :
    ChContinuumPlasticVonMises R :=
  { self with toChContinuumMaterial := self.toChContinuumMaterial.Set_density m_density }

/-- Method `Set_elastic_yeld`: the body is `elastic_yeld = melastic_yeld`. -/
def Set_elastic_yeld (self : ChContinuumPlasticVonMises R) (melastic_yeld : R) :
    ChContinuumPlasticVonMises R :=
  { self with elastic_yeld := melastic_yeld }

/-- Method `Get_elastic_yeld`. -/
def Get_elastic_yeld (self : ChContinuumPlasticVonMises R) : R := self.elastic_yeld

/-- Method `Set_plastic_yeld`: the body is `plastic_yeld = mplastic_yeld`. -/
def Set_plastic_yeld (self : ChContinuumPlasticVonMises R) (mplastic_yeld : R) :
    ChContinuumPlasticVonMises R :=
  { self with plastic_yeld := mplastic_yeld }

/-- Method `Get_plastic_yeld`. -/
def Get_plastic_yeld (self : ChContinuumPlasticVonMises R) : R := self.plastic_yeld

/-- Method `Set_flow_rate`: the body is `flow_rate = mflow_rate`. -/
def Set_flow_rate (self : ChContinuumPlasticVonMises R) (mflow_rate : R) :
    ChContinuumPlasticVonMises R :=
  { self with flow_rate := mflow_rate }

/-- Method `Get_flow_rate`. -/
def Get_flow_rate (self : ChContinuumPlasticVonMises R) : R := self.flow_rate

/-- Modelled from the spec: `ComputeYeldFunction` is declared in the header and defined
in a source file that is not part of the sources.  The spec describes it as the von
Mises equivalent stress minus `elastic_yeld`, negative inside the elastic domain. -/
def ComputeYeldFunction [LinearOrderedField R] (sqrt : R → R)
    (self : ChContinuumPlasticVonMises R) (mstress : ChStressTensor R) : R :=
  mstress.GetEquivalentVonMises sqrt - self.elastic_yeld

/-- Modelled from the spec: the parameter constraints that the data model states for a
von Mises material: `density > 0`, `flow_rate > 0`, `elastic_yeld > 0` and
`plastic_yeld ≥ elastic_yeld`. -/
def ParamsValid [LinearOrderedField R] (self : ChContinuumPlasticVonMises R) : Prop :=
  0 < self.density ∧ 0 < self.flow_rate ∧ 0 < self.elastic_yeld ∧
    self.elastic_yeld ≤ self.plastic_yeld

instance [LinearOrderedField R] (self : ChContinuumPlasticVonMises R) :
    Decidable self.ParamsValid := by
  unfold ParamsValid
  infer_instance

end ChContinuumPlasticVonMises

/-- Class `ChContinuumDruckerPrager`: elastoplastic material of Drucker-Prager type. -/
structure ChContinuumDruckerPrager (R : Type) extends ChContinuumElastoplastic R where
  elastic_yeld : R
  alpha : R
  dilatancy : R
  hardening_speed : R
  hardening_limit : R
  flow_rate : R
  deriving DecidableEq

namespace ChContinuumDruckerPrager

variable {R : Type}

/-- Method `Set_density`, inherited from `ChContinuumMaterial`. -/
def Set_density (self : ChContinuumDruckerPrager R) (m_density : R) :
    ChContinuumDruckerPrager R :=
  { self with toChContinuumMaterial := self.toChContinuumMaterial.Set_density m_density }

/-- Method `Set_elastic_yeld`: the body is `elastic_yeld = melastic_yeld`. -/
def Set_elastic_yeld (self : ChContinuumDruckerPrager R) (melastic_yeld : R) :
    ChContinuumDruckerPrager R :=
  { self with elastic_yeld := melastic_yeld }

/-- Method `Get_elastic_yeld`. -/
def Get_elastic_yeld (self : ChContinuumDruckerPrager R) : R := self.elastic_yeld

/-- Method `Set_alpha`: the body is `alpha = malpha`. -/
def Set_alpha (self : ChContinuumDruckerPrager R) (malpha : R) :
    ChContinuumDruckerPrager R :=
  { self with alpha := malpha }

/-- Method `Get_alpha`. -/
def Get_alpha (self : ChContinuumDruckerPrager R) : R := self.alpha

/-- Method `Set_flow_rate`: the body is `flow_rate = mflow_rate`. -/
def Set_flow_rate (self : ChContinuumDruckerPrager R) (mflow_rate : R) :
    ChContinuumDruckerPrager R :=
  { self with flow_rate := mflow_rate }

/-- Method `Get_flow_rate`. -/
def Get_flow_rate (self : ChContinuumDruckerPrager R) : R := self.flow_rate

/-- Method `Set_dilatancy`: the body is `dilatancy = mdilatancy`. -/
def Set_dilatancy (self : ChContinuumDruckerPrager R) (mdilatancy : R) :
    ChContinuumDruckerPrager R :=
  { self with dilatancy := mdilatancy }

/-- Method `Get_dilatancy`. -/
def Get_dilatancy (self : ChContinuumDruckerPrager R) : R := self.dilatancy

/-- Method `Set_hardening_limit`: the body is `hardening_limit = mhl`. -/
def Set_hardening_limit (self : ChContinuumDruckerPrager R) (mhl : R) :
    ChContinuumDruckerPrager R :=
  { self with hardening_limit := mhl }

/-- Method `Get_hardening_limit`. -/
def Get_hardening_limit (self : ChContinuumDruckerPrager R) : R := self.hardening_limit

/-- Method `Set_hardening_speed`: the body is `hardening_speed = mhl`. -/
def Set_hardening_speed (self : ChContinuumDruckerPrager R) (mhl : R) :
    ChContinuumDruckerPrager R :=
  { self with hardening_speed := mhl }

/-- Method `Get_hardening_speed`. -/
def Get_hardening_speed (self : ChContinuumDruckerPrager R) : R := self.hardening_speed

/-- Modelled from the spec: `ComputeYeldFunction` is declared in the header and defined
in a source file that is not part of the sources.  The spec gives it as
`alpha·I1(stress) + sqrt(J2(stress)) − elastic_yeld`. -/
def ComputeYeldFunction [LinearOrderedField R] (sqrt : R → R)
    (self : ChContinuumDruckerPrager R) (mstress : ChStressTensor R) : R :=
  self.alpha * mstress.GetInvariant_I1 + sqrt mstress.GetInvariant_J2 - self.elastic_yeld

/-- Modelled from the spec: the parameter constraints that the data model states for a
Drucker-Prager material: `density > 0`, `flow_rate > 0`, `alpha ≥ 0` and
`dilatancy ≥ 0`. -/
def ParamsValid [LinearOrderedField R] (self : ChContinuumDruckerPrager R) : Prop :=
  0 < self.density ∧ 0 < self.flow_rate ∧ 0 ≤ self.alpha ∧ 0 ≤ self.dilatancy

instance [LinearOrderedField R] (self : ChContinuumDruckerPrager R) :
    Decidable self.ParamsValid := by
  unfold ParamsValid
  infer_instance

end ChContinuumDruckerPrager

/-! ## Theorems -/

section Lemmas

variable {R : Type} [LinearOrderedField R]

/-- The argument that `GetInvariant_J2` clamps is a sum of squares. -/
lemma ChVoightTensor.J2_arg_eq (t : ChVoightTensor R) :
    t.GetInvariant_I1 ^ 2 / 3.0 - t.GetInvariant_I2
      = ((t.XX - t.YY) ^ 2 + (t.YY - t.ZZ) ^ 2 + (t.ZZ - t.XX) ^ 2) / 6
        + (t.XY ^ 2 + t.XZ ^ 2 + t.YZ ^ 2) := by
  have h3 : (3.0 : R) = 3 := by norm_num
  simp only [ChVoightTensor.GetInvariant_I1, ChVoightTensor.GetInvariant_I2, h3]
  ring

/-- The argument that `GetInvariant_J2` clamps is never negative. -/
lemma ChVoightTensor.J2_arg_nonneg (t : ChVoightTensor R) :
    0 ≤ t.GetInvariant_I1 ^ 2 / 3.0 - t.GetInvariant_I2 := by
  rw [t.J2_arg_eq]
  positivity

/-- In exact arithmetic the clamp of `GetInvariant_J2` is inactive. -/
lemma ChVoightTensor.GetInvariant_J2_eq (t : ChVoightTensor R) :
    t.GetInvariant_J2 = t.GetInvariant_I1 ^ 2 / 3.0 - t.GetInvariant_I2 := by
  have h0 : (0.0 : R) = 0 := by norm_num
  simp only [ChVoightTensor.GetInvariant_J2, ChMax, h0]
  exact max_eq_right t.J2_arg_nonneg

/-- The quantity under the square root of `GetEquivalentVonMises` is `3 * J2`. -/
lemma ChVoightTensor.vonMises_arg_eq (t : ChVoightTensor R) :
    0.5 * ((t.XX - t.YY) ^ 2 + (t.YY - t.ZZ) ^ 2 + (t.ZZ - t.XX) ^ 2)
        + 3.0 * (t.XY * t.XY + t.XZ * t.XZ + t.YZ * t.YZ)
      = 3 * t.GetInvariant_J2 := by
  have h3 : (3.0 : R) = 3 := by norm_num
  have hhalf : (0.5 : R) = 1 / 2 := by norm_num
  rw [t.GetInvariant_J2_eq, t.J2_arg_eq, h3, hhalf]
  ring

/-- Over the reals, `GetEquivalentVonMises = sqrt 3 * sqrt J2`. -/
lemma ChVoightTensor.GetEquivalentVonMises_eq_sqrt (t : ChVoightTensor ℝ) :
    t.GetEquivalentVonMises Real.sqrt = Real.sqrt 3 * Real.sqrt t.GetInvariant_J2 := by
  unfold ChVoightTensor.GetEquivalentVonMises
  rw [t.vonMises_arg_eq, Real.sqrt_mul (by norm_num : (0 : ℝ) ≤ 3)]

/-- A rejected `Set_E` call leaves the material as it was. -/
lemma ChContinuumElastic.Set_E_of_le (m : ChContinuumElastic R) (x : R) (h : x ≤ 0) :
    m.Set_E x = (false, m) := by
  simp only [ChContinuumElastic.Set_E, if_pos h]

/-- An accepted `Set_E` call stores `E` and recomputes `G` and `l`. -/
lemma ChContinuumElastic.Set_E_of_pos (m : ChContinuumElastic R) (x : R) (h : 0 < x) :
    m.Set_E x = (true, { m with
      E := x
      G := x / (2 * (1 + m.v))
      l := x * m.v / ((1 + m.v) * (1 - 2 * m.v)) }) := by
  simp only [ChContinuumElastic.Set_E, if_neg (not_le.mpr h)]

/-- `Set_E` accepts exactly the positive arguments. -/
lemma ChContinuumElastic.Set_E_fst (m : ChContinuumElastic R) (x : R) :
    (m.Set_E x).1 = true ↔ 0 < x := by
  rcases le_or_lt x 0 with h | h
  · simp [m.Set_E_of_le x h, not_lt.mpr h]
  · simp [m.Set_E_of_pos x h, h]

/-- A rejected `Set_v` call leaves the material as it was. -/
lemma ChContinuumElastic.Set_v_of_degenerate (m : ChContinuumElastic R) (x : R)
    (h : x = 1 / 2 ∨ x = -1) : m.Set_v x = (false, m) := by
  have hhalf : (0.5 : R) = 1 / 2 := by norm_num
  simp only [ChContinuumElastic.Set_v, hhalf, if_pos h]

/-- An accepted `Set_v` call stores `v` and recomputes `G` and `l`. -/
lemma ChContinuumElastic.Set_v_of_ne (m : ChContinuumElastic R) (x : R)
    (h1 : x ≠ 1 / 2) (h2 : x ≠ -1) :
    m.Set_v x = (true, { m with
      v := x
      G := m.E / (2 * (1 + x))
      l := m.E * x / ((1 + x) * (1 - 2 * x)) }) := by
  have hhalf : (0.5 : R) = 1 / 2 := by norm_num
  have h : ¬ (x = 1 / 2 ∨ x = -1) := not_or.mpr ⟨h1, h2⟩
  simp only [ChContinuumElastic.Set_v, hhalf, if_neg h]

/-- `Set_v` accepts exactly the arguments other than `1/2` and `-1`. -/
lemma ChContinuumElastic.Set_v_fst (m : ChContinuumElastic R) (x : R) :
    (m.Set_v x).1 = true ↔ x ≠ 1 / 2 ∧ x ≠ -1 := by
  by_cases h : x = 1 / 2 ∨ x = -1
  · simp only [m.Set_v_of_degenerate x h, Bool.false_eq_true, false_iff]
    tauto
  · rw [not_or] at h
    rw [m.Set_v_of_ne x h.1 h.2]
    exact ⟨fun _ => h, fun _ => rfl⟩

/-- A rejected `Set_G` call leaves the material as it was. -/
lemma ChContinuumElastic.Set_G_of_le (m : ChContinuumElastic R) (x : R) (h : x ≤ 0) :
    m.Set_G x = (false, m) := by
  simp only [ChContinuumElastic.Set_G, if_pos h]

/-- A `Set_G` call whose back-solved `v` is degenerate leaves the material as it was. -/
lemma ChContinuumElastic.Set_G_of_degenerate (m : ChContinuumElastic R) (x : R) (h : 0 < x)
    (hd : m.E / (2 * x) - 1 = 1 / 2 ∨ m.E / (2 * x) - 1 = -1) :
    m.Set_G x = (false, m) := by
  have hhalf : (0.5 : R) = 1 / 2 := by norm_num
  simp only [ChContinuumElastic.Set_G, hhalf, if_neg (not_le.mpr h), if_pos hd]

/-- An accepted `Set_G` call stores `G`, back-solves `v` and recomputes `l`. -/
lemma ChContinuumElastic.Set_G_of_pos (m : ChContinuumElastic R) (x : R) (h : 0 < x)
    (h1 : m.E / (2 * x) - 1 ≠ 1 / 2) (h2 : m.E / (2 * x) - 1 ≠ -1) :
    m.Set_G x = (true, { m with
      G := x
      v := m.E / (2 * x) - 1
      l := m.E * (m.E / (2 * x) - 1)
        / ((1 + (m.E / (2 * x) - 1)) * (1 - 2 * (m.E / (2 * x) - 1))) }) := by
  have hhalf : (0.5 : R) = 1 / 2 := by norm_num
  have hd : ¬ (m.E / (2 * x) - 1 = 1 / 2 ∨ m.E / (2 * x) - 1 = -1) := not_or.mpr ⟨h1, h2⟩
  simp only [ChContinuumElastic.Set_G, hhalf, if_neg (not_le.mpr h), if_neg hd]

/-- `Set_G` accepts exactly the positive arguments whose back-solved `v` is neither `1/2`
nor `-1`. -/
lemma ChContinuumElastic.Set_G_fst (m : ChContinuumElastic R) (x : R) :
    (m.Set_G x).1 = true ↔
      0 < x ∧ m.E / (2 * x) - 1 ≠ 1 / 2 ∧ m.E / (2 * x) - 1 ≠ -1 := by
  rcases le_or_lt x 0 with h | h
  · simp only [m.Set_G_of_le x h, Bool.false_eq_true, false_iff]
    intro hc
    exact absurd hc.1 (not_lt.mpr h)
  · by_cases hd : m.E / (2 * x) - 1 = 1 / 2 ∨ m.E / (2 * x) - 1 = -1
    · simp only [m.Set_G_of_degenerate x h hd, Bool.false_eq_true, false_iff]
      tauto
    · rw [not_or] at hd
      rw [m.Set_G_of_pos x h hd.1 hd.2]
      exact ⟨fun _ => ⟨h, hd.1, hd.2⟩, fun _ => rfl⟩

/-- One setter call, accepted or rejected, keeps `E > 0`, `v ≠ -1` and `v ≠ 1/2`. -/
lemma ChContinuumElastic.call_nondegenerate (m : ChContinuumElastic R) (c : SetterCall R)
    (hE : 0 < m.E) (hv1 : m.v ≠ -1) (hv2 : m.v ≠ 1 / 2) :
    0 < (m.call c).E ∧ (m.call c).v ≠ -1 ∧ (m.call c).v ≠ 1 / 2 := by
  cases c with
  | Set_E x =>
    show 0 < (m.Set_E x).2.E ∧ (m.Set_E x).2.v ≠ -1 ∧ (m.Set_E x).2.v ≠ 1 / 2
    rcases le_or_lt x 0 with h | h
    · rw [m.Set_E_of_le x h]
      exact ⟨hE, hv1, hv2⟩
    · rw [m.Set_E_of_pos x h]
      exact ⟨h, hv1, hv2⟩
  | Set_v x =>
    show 0 < (m.Set_v x).2.E ∧ (m.Set_v x).2.v ≠ -1 ∧ (m.Set_v x).2.v ≠ 1 / 2
    by_cases h : x = 1 / 2 ∨ x = -1
    · rw [m.Set_v_of_degenerate x h]
      exact ⟨hE, hv1, hv2⟩
    · rw [not_or] at h
      rw [m.Set_v_of_ne x h.1 h.2]
      exact ⟨hE, h.2, h.1⟩
  | Set_G x =>
    show 0 < (m.Set_G x).2.E ∧ (m.Set_G x).2.v ≠ -1 ∧ (m.Set_G x).2.v ≠ 1 / 2
    rcases le_or_lt x 0 with h | h
    · rw [m.Set_G_of_le x h]
      exact ⟨hE, hv1, hv2⟩
    · by_cases hd : m.E / (2 * x) - 1 = 1 / 2 ∨ m.E / (2 * x) - 1 = -1
      · rw [m.Set_G_of_degenerate x h hd]
        exact ⟨hE, hv1, hv2⟩
      · rw [not_or] at hd
        rw [m.Set_G_of_pos x h hd.1 hd.2]
        exact ⟨hE, hd.2, hd.1⟩

/-- Every material reached through setter calls from one with `E > 0`, `v ≠ -1` and
`v ≠ 1/2` has `E > 0`, `v ≠ -1` and `v ≠ 1/2`. -/
lemma ChContinuumElastic.run_nondegenerate (calls : List (SetterCall R)) :
    ∀ m : ChContinuumElastic R, 0 < m.E → m.v ≠ -1 → m.v ≠ 1 / 2 →
      0 < (m.run calls).E ∧ (m.run calls).v ≠ -1 ∧ (m.run calls).v ≠ 1 / 2 := by
  induction calls with
  | nil =>
    intro m hE hv1 hv2
    exact ⟨hE, hv1, hv2⟩
  | cons c cs ih =>
    intro m hE hv1 hv2
    obtain ⟨h1, h2, h3⟩ := m.call_nondegenerate c hE hv1 hv2
    exact ih (m.call c) h1 h2 h3

end Lemmas

section Theorems

variable {R : Type} [LinearOrderedField R]

/-- C1. For an elastic material with consistent constants (`E > 0`, `-1 < v < 1/2`,
`G = E/(2(1+v))`, `l = E v/((1+v)(1-2v))`), computing the elastic strain of the elastic
stress of a strain tensor `e` gives back `e`, in all six components, whatever the
destination tensors held before. -/
theorem ComputeElasticStrain_ComputeElasticStress (m : ChContinuumElastic R)
    (e s0 e0 : ChVoightTensor R)
    (hE : 0 < m.E) (hv1 : -1 < m.v) (hv2 : m.v < 1 / 2)
    (hG : m.G = m.E / (2 * (1 + m.v)))
    (hl : m.l = m.E * m.v / ((1 + m.v) * (1 - 2 * m.v))) :
    m.ComputeElasticStrain e0 (m.ComputeElasticStress s0 e) = e := by
  have h1 : (1 + m.v) ≠ 0 := by linarith
  have h2 : (1 - 2 * m.v) ≠ 0 := by linarith
  have hE0 : m.E ≠ 0 := ne_of_gt hE
  have hG0 : m.G ≠ 0 := by rw [hG]; exact div_ne_zero hE0 (mul_ne_zero two_ne_zero h1)
  have hG2 : 2 * m.G * (1 + m.v) = m.E := by rw [hG]; field_simp; ring
  have hl2 : m.l * (1 - 2 * m.v) = 2 * m.G * m.v := by rw [hl, hG]; field_simp; ring
  have hone : (1. : R) = 1 := by norm_num
  have hhalf : (0.5 : R) = 1 / 2 := by norm_num
  obtain ⟨exx, eyy, ezz, exy, exz, eyz⟩ := e
  simp only [ChContinuumElastic.ComputeElasticStrain,
    ChContinuumElastic.ComputeElasticStress, ChVoightTensor.mk.injEq, hone, hhalf]
  refine ⟨?_, ?_, ?_, ?_, ?_, ?_⟩
  · rw [div_mul_eq_mul_div, one_mul, div_eq_iff hE0]
    linear_combination (exx + eyy + ezz) * hl2 + exx * hG2
  · rw [div_mul_eq_mul_div, one_mul, div_eq_iff hE0]
    linear_combination (exx + eyy + ezz) * hl2 + eyy * hG2
  · rw [div_mul_eq_mul_div, one_mul, div_eq_iff hE0]
    linear_combination (exx + eyy + ezz) * hl2 + ezz * hG2
  · field_simp
    ring
  · field_simp
    ring
  · field_simp
    ring

/-- Witness for C1: a material with `E = 1`, `v = 1/4`, `G = l = 2/5` and the strain
`(1, 2, 3, 4, 5, 6)`. -/
theorem ComputeElasticStrain_ComputeElasticStress_witness :
    (0 : ℚ) < 1 ∧ (-1 : ℚ) < 1 / 4 ∧ (1 / 4 : ℚ) < 1 / 2 ∧
    (2 / 5 : ℚ) = 1 / (2 * (1 + 1 / 4)) ∧
    (2 / 5 : ℚ) = 1 * (1 / 4) / ((1 + 1 / 4) * (1 - 2 * (1 / 4))) ∧
    ChContinuumElastic.ComputeElasticStrain (⟨⟨1000⟩, 1, 1 / 4, 2 / 5, 2 / 5⟩ : ChContinuumElastic ℚ)
      ⟨0, 0, 0, 0, 0, 0⟩
      (ChContinuumElastic.ComputeElasticStress ⟨⟨1000⟩, 1, 1 / 4, 2 / 5, 2 / 5⟩
        ⟨0, 0, 0, 0, 0, 0⟩ ⟨1, 2, 3, 4, 5, 6⟩) = ⟨1, 2, 3, 4, 5, 6⟩ :=
  ⟨by norm_num, by norm_num, by norm_num, by norm_num, by norm_num,
    ComputeElasticStrain_ComputeElasticStress ⟨⟨1000⟩, 1, 1 / 4, 2 / 5, 2 / 5⟩
      ⟨1, 2, 3, 4, 5, 6⟩ ⟨0, 0, 0, 0, 0, 0⟩ ⟨0, 0, 0, 0, 0, 0⟩
      (by norm_num) (by norm_num) (by norm_num) (by norm_num) (by norm_num)⟩

/-- C2. On the material with `E = 1` and `v = 1/4` (and the consistent `G = l = 2/5`),
`Get_WaveModulus` returns `3/10`, whereas the P-wave modulus
`E (1 - v) / ((1 + v) (1 - 2 v))` of that material is `6/5`. -/
theorem Get_WaveModulus_not_PWave :
    ChContinuumElastic.Get_WaveModulus
        (⟨⟨1000⟩, 1, 1 / 4, 2 / 5, 2 / 5⟩ : ChContinuumElastic ℚ) = 3 / 10 ∧
      (1 : ℚ) * (1 - 1 / 4) / ((1 + 1 / 4) * (1 - 2 * (1 / 4))) = 6 / 5 ∧
      ChContinuumElastic.Get_WaveModulus
        (⟨⟨1000⟩, 1, 1 / 4, 2 / 5, 2 / 5⟩ : ChContinuumElastic ℚ) ≠
        (1 : ℚ) * (1 - 1 / 4) / ((1 + 1 / 4) * (1 - 2 * (1 / 4))) := by
  simp only [ChContinuumElastic.Get_WaveModulus]
  norm_num

/-- C3. For a symmetric 3×3 matrix `M`, converting `M` to a Voigt tensor and the tensor
back to a matrix gives `M` in all nine entries, whatever the tensor and the destination
matrix held before. -/
theorem ConvertToMatrix_ConvertFromMatrix {S : Type} (M mdest : ChMatrix33 S)
    (t0 : ChVoightTensor S) (hM : ∀ i j, M i j = M j i) :
    (t0.ConvertFromMatrix M).ConvertToMatrix mdest = M := by
  funext i j
  fin_cases i <;> fin_cases j <;>
    simp [ChVoightTensor.ConvertToMatrix, ChVoightTensor.ConvertFromMatrix,
      ChMatrix33.set]
  · exact hM 0 1
  · exact hM 0 2
  · exact hM 1 2

/-- Witness for C3: the symmetric matrix with rows `(1,2,3)`, `(2,4,5)`, `(3,5,6)`, a
tensor holding `9` everywhere and a destination matrix holding `7` everywhere. -/
theorem ConvertToMatrix_ConvertFromMatrix_witness :
    (∀ i j : Fin 3, (![![1, 2, 3], ![2, 4, 5], ![3, 5, 6]] : ChMatrix33 ℚ) i j
        = (![![1, 2, 3], ![2, 4, 5], ![3, 5, 6]] : ChMatrix33 ℚ) j i) ∧
    ((⟨9, 9, 9, 9, 9, 9⟩ : ChVoightTensor ℚ).ConvertFromMatrix
        ![![1, 2, 3], ![2, 4, 5], ![3, 5, 6]]).ConvertToMatrix (fun _ _ => 7)
      = ![![1, 2, 3], ![2, 4, 5], ![3, 5, 6]] :=
  ⟨by decide, ConvertToMatrix_ConvertFromMatrix _ _ _ (by decide)⟩

/-- C4. `ConvertToMatrix` writes a symmetric matrix: the diagonal entries are `XX`, `YY`,
`ZZ`, and both entries of each off-diagonal pair `(0,1)/(1,0)`, `(0,2)/(2,0)`,
`(1,2)/(2,1)` are the stored `XY`, `XZ`, `YZ`, whatever the destination held before. -/
theorem ConvertToMatrix_entries {S : Type} (t : ChVoightTensor S) (mdest : ChMatrix33 S) :
    t.ConvertToMatrix mdest 0 0 = t.XX ∧ t.ConvertToMatrix mdest 1 1 = t.YY ∧
    t.ConvertToMatrix mdest 2 2 = t.ZZ ∧
    t.ConvertToMatrix mdest 0 1 = t.XY ∧ t.ConvertToMatrix mdest 1 0 = t.XY ∧
    t.ConvertToMatrix mdest 0 2 = t.XZ ∧ t.ConvertToMatrix mdest 2 0 = t.XZ ∧
    t.ConvertToMatrix mdest 1 2 = t.YZ ∧ t.ConvertToMatrix mdest 2 1 = t.YZ ∧
    ∀ i j, t.ConvertToMatrix mdest i j = t.ConvertToMatrix mdest j i := by
  refine ⟨?_, ?_, ?_, ?_, ?_, ?_, ?_, ?_, ?_, ?_⟩
  all_goals try (simp [ChVoightTensor.ConvertToMatrix, ChMatrix33.set]; done)
  intro i j
  fin_cases i <;> fin_cases j <;>
    simp [ChVoightTensor.ConvertToMatrix, ChMatrix33.set]

/-- C5. For every Voigt tensor `t`, `GetInvariant_I1` equals `GetVolumetricPart`; the
tensor written by `GetDeviatoricPart` has volumetric part `0`, which is the value of
`GetInvariant_J1`; and its three shear components are those of `t`.  The previous
content `d0` of the destination plays no role. -/
theorem GetDeviatoricPart_volumetric (t d0 : ChVoightTensor R) :
    t.GetInvariant_I1 = t.GetVolumetricPart ∧
    (t.GetDeviatoricPart d0).GetVolumetricPart = 0 ∧
    (t.GetDeviatoricPart d0).GetVolumetricPart = t.GetInvariant_J1 ∧
    (t.GetDeviatoricPart d0).XY = t.XY ∧ (t.GetDeviatoricPart d0).XZ = t.XZ ∧
    (t.GetDeviatoricPart d0).YZ = t.YZ := by
  have h3 : (3.0 : R) = 3 := by norm_num
  have hvol : (t.GetDeviatoricPart d0).GetVolumetricPart = 0 := by
    simp only [ChVoightTensor.GetDeviatoricPart, ChVoightTensor.GetVolumetricPart, h3]
    ring
  exact ⟨rfl, hvol, hvol, rfl, rfl, rfl⟩

/-- C6. For every Voigt tensor `t`, `GetInvariant_J2` equals `max 0 (I1² / 3 - I2)` and
is therefore never negative. -/
theorem GetInvariant_J2_clamped (t : ChVoightTensor R) :
    t.GetInvariant_J2 = max 0 (t.GetInvariant_I1 ^ 2 / 3 - t.GetInvariant_I2) ∧
    0 ≤ t.GetInvariant_J2 := by
  have h0 : (0.0 : R) = 0 := by norm_num
  have h3 : (3.0 : R) = 3 := by norm_num
  have h : t.GetInvariant_J2 = max 0 (t.GetInvariant_I1 ^ 2 / 3 - t.GetInvariant_I2) := by
    simp only [ChVoightTensor.GetInvariant_J2, ChMax, h0, h3]
  exact ⟨h, h ▸ le_max_left _ _⟩

/-- C7. Pure shear: the tensor with `XX = YY = ZZ = 0`, `XY = tau`, `XZ = YZ = 0` has
von Mises equivalent `sqrt 3 * |tau|`. -/
theorem GetEquivalentVonMises_pure_shear (tau : ℝ) :
    ChVoightTensor.GetEquivalentVonMises Real.sqrt ⟨0, 0, 0, tau, 0, 0⟩
      = Real.sqrt 3 * |tau| := by
  have h : (0.5 : ℝ) * ((0 - 0) ^ 2 + (0 - 0) ^ 2 + (0 - 0) ^ 2)
      + 3.0 * (tau * tau + 0 * 0 + 0 * 0) = 3 * tau ^ 2 := by
    norm_num
    ring
  simp only [ChVoightTensor.GetEquivalentVonMises, h]
  rw [Real.sqrt_mul (by norm_num : (0 : ℝ) ≤ 3), Real.sqrt_sq_eq_abs]

/-- C8. `ComputeElasticStress` is Hooke's law in Lamé form, for any `l` and `G`: each
normal stress is `l * (strain XX + strain YY + strain ZZ) + 2 * G *` the same normal
strain, and each shear stress is `2 * G *` the corresponding shear strain. -/
theorem ComputeElasticStress_lame (m : ChContinuumElastic R) (s0 e : ChVoightTensor R) :
    (m.ComputeElasticStress s0 e).XX = m.l * (e.XX + e.YY + e.ZZ) + 2 * m.G * e.XX ∧
    (m.ComputeElasticStress s0 e).YY = m.l * (e.XX + e.YY + e.ZZ) + 2 * m.G * e.YY ∧
    (m.ComputeElasticStress s0 e).ZZ = m.l * (e.XX + e.YY + e.ZZ) + 2 * m.G * e.ZZ ∧
    (m.ComputeElasticStress s0 e).XY = 2 * m.G * e.XY ∧
    (m.ComputeElasticStress s0 e).XZ = 2 * m.G * e.XZ ∧
    (m.ComputeElasticStress s0 e).YZ = 2 * m.G * e.YZ := by
  simp only [ChContinuumElastic.ComputeElasticStress]
  refine ⟨?_, ?_, ?_, ?_, ?_, ?_⟩ <;> ring

/-- C9, as stated, fails: for the pure shear stress `XY = 1`, with `alpha = 0` and a
common `elastic_yeld = 0`, the Drucker-Prager yield function is `1` and the von Mises
yield function is `sqrt 3`. -/
theorem DruckerPrager_alpha_zero_ne_VonMises :
    (⟨⟨⟨⟨1000⟩, 1, 1 / 4, 2 / 5, 2 / 5⟩⟩, 0, 0, 0, 1, 1, 1⟩ :
        ChContinuumDruckerPrager ℝ).alpha = 0 ∧
    (⟨⟨⟨⟨1000⟩, 1, 1 / 4, 2 / 5, 2 / 5⟩⟩, 0, 0, 0, 1, 1, 1⟩ :
        ChContinuumDruckerPrager ℝ).elastic_yeld
      = (⟨⟨⟨⟨1000⟩, 1, 1 / 4, 2 / 5, 2 / 5⟩⟩, 0, 1, 1⟩ :
        ChContinuumPlasticVonMises ℝ).elastic_yeld ∧
    ChContinuumDruckerPrager.ComputeYeldFunction Real.sqrt
        ⟨⟨⟨⟨1000⟩, 1, 1 / 4, 2 / 5, 2 / 5⟩⟩, 0, 0, 0, 1, 1, 1⟩ ⟨0, 0, 0, 1, 0, 0⟩ = 1 ∧
    ChContinuumPlasticVonMises.ComputeYeldFunction Real.sqrt
        ⟨⟨⟨⟨1000⟩, 1, 1 / 4, 2 / 5, 2 / 5⟩⟩, 0, 1, 1⟩ ⟨0, 0, 0, 1, 0, 0⟩ = Real.sqrt 3 ∧
    ChContinuumDruckerPrager.ComputeYeldFunction Real.sqrt
        ⟨⟨⟨⟨1000⟩, 1, 1 / 4, 2 / 5, 2 / 5⟩⟩, 0, 0, 0, 1, 1, 1⟩ ⟨0, 0, 0, 1, 0, 0⟩ ≠
      ChContinuumPlasticVonMises.ComputeYeldFunction Real.sqrt
        ⟨⟨⟨⟨1000⟩, 1, 1 / 4, 2 / 5, 2 / 5⟩⟩, 0, 1, 1⟩ ⟨0, 0, 0, 1, 0, 0⟩ := by
  have hdp : ChContinuumDruckerPrager.ComputeYeldFunction Real.sqrt
      ⟨⟨⟨⟨1000⟩, 1, 1 / 4, 2 / 5, 2 / 5⟩⟩, 0, 0, 0, 1, 1, 1⟩ ⟨0, 0, 0, 1, 0, 0⟩ = 1 := by
    simp only [ChContinuumDruckerPrager.ComputeYeldFunction,
      ChVoightTensor.GetInvariant_J2_eq, ChVoightTensor.GetInvariant_I1,
      ChVoightTensor.GetInvariant_I2]
    norm_num
  have hvm : ChContinuumPlasticVonMises.ComputeYeldFunction Real.sqrt
      ⟨⟨⟨⟨1000⟩, 1, 1 / 4, 2 / 5, 2 / 5⟩⟩, 0, 1, 1⟩ ⟨0, 0, 0, 1, 0, 0⟩ = Real.sqrt 3 := by
    simp only [ChContinuumPlasticVonMises.ComputeYeldFunction,
      ChVoightTensor.GetEquivalentVonMises]
    norm_num
  refine ⟨rfl, rfl, hdp, hvm, ?_⟩
  rw [hdp, hvm]
  intro h
  have h3 : Real.sqrt 3 ^ 2 = 3 := Real.sq_sqrt (by norm_num)
  rw [← h] at h3
  norm_num at h3

/-- C9, amended. With `alpha = 0` and a common `elastic_yeld`, the Drucker-Prager yield
function is the von Mises equivalent stress divided by `sqrt 3`, minus `elastic_yeld`;
it equals the von Mises yield function exactly on the stresses with `J2 = 0`. -/
theorem DruckerPrager_alpha_zero (dp : ChContinuumDruckerPrager ℝ)
    (vm : ChContinuumPlasticVonMises ℝ) (s : ChStressTensor ℝ)
    (h0 : dp.alpha = 0) (hk : dp.elastic_yeld = vm.elastic_yeld) :
    dp.ComputeYeldFunction Real.sqrt s
        = s.GetEquivalentVonMises Real.sqrt / Real.sqrt 3 - vm.elastic_yeld ∧
    dp.ComputeYeldFunction Real.sqrt s
        = (vm.ComputeYeldFunction Real.sqrt s + vm.elastic_yeld) / Real.sqrt 3
          - vm.elastic_yeld ∧
    (dp.ComputeYeldFunction Real.sqrt s = vm.ComputeYeldFunction Real.sqrt s
        ↔ s.GetInvariant_J2 = 0) := by
  have hs3 : Real.sqrt 3 ≠ 0 := by
    rw [Ne, Real.sqrt_eq_zero (by norm_num : (0 : ℝ) ≤ 3)]
    norm_num
  have hJ : 0 ≤ s.GetInvariant_J2 := by
    rw [s.GetInvariant_J2_eq]
    exact s.J2_arg_nonneg
  have hdp : dp.ComputeYeldFunction Real.sqrt s
      = s.GetEquivalentVonMises Real.sqrt / Real.sqrt 3 - vm.elastic_yeld := by
    simp only [ChContinuumDruckerPrager.ComputeYeldFunction, h0, hk,
      s.GetEquivalentVonMises_eq_sqrt]
    field_simp
  refine ⟨hdp, ?_, ?_⟩
  · rw [hdp]
    simp only [ChContinuumPlasticVonMises.ComputeYeldFunction]
    ring_nf
  · rw [hdp]
    simp only [ChContinuumPlasticVonMises.ComputeYeldFunction,
      s.GetEquivalentVonMises_eq_sqrt]
    have h31 : Real.sqrt 3 - 1 ≠ 0 := by
      intro h
      have h3 : Real.sqrt 3 ^ 2 = 3 := Real.sq_sqrt (by norm_num)
      have : Real.sqrt 3 = 1 := by linarith
      rw [this] at h3
      norm_num at h3
    constructor
    · intro h
      have h2 : Real.sqrt s.GetInvariant_J2 * (Real.sqrt 3 - 1) = 0 := by
        field_simp at h
        linarith
      rcases mul_eq_zero.mp h2 with h4 | h4
      · exact (Real.sqrt_eq_zero hJ).mp h4
      · exact absurd h4 h31
    · intro h
      rw [h]
      simp

/-- Witness for the amended C9: `alpha = 0`, common `elastic_yeld = 2` and the stress
`(1, 2, 3, 4, 5, 6)`. -/
theorem DruckerPrager_alpha_zero_witness :
    (⟨⟨⟨⟨1000⟩, 1, 1 / 4, 2 / 5, 2 / 5⟩⟩, 2, 0, 0, 1, 1, 1⟩ :
        ChContinuumDruckerPrager ℝ).alpha = 0 ∧
    (⟨⟨⟨⟨1000⟩, 1, 1 / 4, 2 / 5, 2 / 5⟩⟩, 2, 0, 0, 1, 1, 1⟩ :
        ChContinuumDruckerPrager ℝ).elastic_yeld
      = (⟨⟨⟨⟨1000⟩, 1, 1 / 4, 2 / 5, 2 / 5⟩⟩, 2, 3, 1⟩ :
        ChContinuumPlasticVonMises ℝ).elastic_yeld ∧
    ChContinuumDruckerPrager.ComputeYeldFunction Real.sqrt
        ⟨⟨⟨⟨1000⟩, 1, 1 / 4, 2 / 5, 2 / 5⟩⟩, 2, 0, 0, 1, 1, 1⟩ ⟨1, 2, 3, 4, 5, 6⟩
      = ChVoightTensor.GetEquivalentVonMises Real.sqrt ⟨1, 2, 3, 4, 5, 6⟩ / Real.sqrt 3
        - (⟨⟨⟨⟨1000⟩, 1, 1 / 4, 2 / 5, 2 / 5⟩⟩, 2, 3, 1⟩ :
          ChContinuumPlasticVonMises ℝ).elastic_yeld :=
  ⟨rfl, rfl,
    (DruckerPrager_alpha_zero ⟨⟨⟨⟨1000⟩, 1, 1 / 4, 2 / 5, 2 / 5⟩⟩, 2, 0, 0, 1, 1, 1⟩
      ⟨⟨⟨⟨1000⟩, 1, 1 / 4, 2 / 5, 2 / 5⟩⟩, 2, 3, 1⟩ ⟨1, 2, 3, 4, 5, 6⟩ rfl rfl).1⟩

/-- C10, as stated, fails: no setter rejects anything.  On a valid von Mises material and
a valid Drucker-Prager material, each constrained setter called with a degenerate value
stores that value and leaves a material that is no longer valid. -/
theorem setters_accept_degenerate_values :
    (⟨⟨⟨⟨1000⟩, 1, 1 / 4, 2 / 5, 2 / 5⟩⟩, 1 / 10, 1 / 5, 1⟩ : ChContinuumPlasticVonMises ℚ).ParamsValid ∧
    (⟨⟨⟨⟨1000⟩, 1, 1 / 4, 2 / 5, 2 / 5⟩⟩, 1 / 10, 1 / 2, 0, 1, 1, 1⟩ : ChContinuumDruckerPrager ℚ).ParamsValid ∧
    ((⟨⟨⟨⟨1000⟩, 1, 1 / 4, 2 / 5, 2 / 5⟩⟩, 1 / 10, 1 / 5, 1⟩ : ChContinuumPlasticVonMises ℚ).Set_density (-1)).density = -1 ∧ ¬ ((⟨⟨⟨⟨1000⟩, 1, 1 / 4, 2 / 5, 2 / 5⟩⟩, 1 / 10, 1 / 5, 1⟩ : ChContinuumPlasticVonMises ℚ).Set_density (-1)).ParamsValid ∧
    ((⟨⟨⟨⟨1000⟩, 1, 1 / 4, 2 / 5, 2 / 5⟩⟩, 1 / 10, 1 / 5, 1⟩ : ChContinuumPlasticVonMises ℚ).Set_elastic_yeld 0).elastic_yeld = 0 ∧ ¬ ((⟨⟨⟨⟨1000⟩, 1, 1 / 4, 2 / 5, 2 / 5⟩⟩, 1 / 10, 1 / 5, 1⟩ : ChContinuumPlasticVonMises ℚ).Set_elastic_yeld 0).ParamsValid ∧
    ((⟨⟨⟨⟨1000⟩, 1, 1 / 4, 2 / 5, 2 / 5⟩⟩, 1 / 10, 1 / 5, 1⟩ : ChContinuumPlasticVonMises ℚ).Set_plastic_yeld 0).plastic_yeld = 0 ∧ ¬ ((⟨⟨⟨⟨1000⟩, 1, 1 / 4, 2 / 5, 2 / 5⟩⟩, 1 / 10, 1 / 5, 1⟩ : ChContinuumPlasticVonMises ℚ).Set_plastic_yeld 0).ParamsValid ∧
    ((⟨⟨⟨⟨1000⟩, 1, 1 / 4, 2 / 5, 2 / 5⟩⟩, 1 / 10, 1 / 5, 1⟩ : ChContinuumPlasticVonMises ℚ).Set_flow_rate 0).flow_rate = 0 ∧ ¬ ((⟨⟨⟨⟨1000⟩, 1, 1 / 4, 2 / 5, 2 / 5⟩⟩, 1 / 10, 1 / 5, 1⟩ : ChContinuumPlasticVonMises ℚ).Set_flow_rate 0).ParamsValid ∧
    ((⟨⟨⟨⟨1000⟩, 1, 1 / 4, 2 / 5, 2 / 5⟩⟩, 1 / 10, 1 / 2, 0, 1, 1, 1⟩ : ChContinuumDruckerPrager ℚ).Set_density 0).density = 0 ∧ ¬ ((⟨⟨⟨⟨1000⟩, 1, 1 / 4, 2 / 5, 2 / 5⟩⟩, 1 / 10, 1 / 2, 0, 1, 1, 1⟩ : ChContinuumDruckerPrager ℚ).Set_density 0).ParamsValid ∧
    ((⟨⟨⟨⟨1000⟩, 1, 1 / 4, 2 / 5, 2 / 5⟩⟩, 1 / 10, 1 / 2, 0, 1, 1, 1⟩ : ChContinuumDruckerPrager ℚ).Set_alpha (-1)).alpha = -1 ∧ ¬ ((⟨⟨⟨⟨1000⟩, 1, 1 / 4, 2 / 5, 2 / 5⟩⟩, 1 / 10, 1 / 2, 0, 1, 1, 1⟩ : ChContinuumDruckerPrager ℚ).Set_alpha (-1)).ParamsValid ∧
    ((⟨⟨⟨⟨1000⟩, 1, 1 / 4, 2 / 5, 2 / 5⟩⟩, 1 / 10, 1 / 2, 0, 1, 1, 1⟩ : ChContinuumDruckerPrager ℚ).Set_flow_rate (-1)).flow_rate = -1 ∧ ¬ ((⟨⟨⟨⟨1000⟩, 1, 1 / 4, 2 / 5, 2 / 5⟩⟩, 1 / 10, 1 / 2, 0, 1, 1, 1⟩ : ChContinuumDruckerPrager ℚ).Set_flow_rate (-1)).ParamsValid ∧
    ((⟨⟨⟨⟨1000⟩, 1, 1 / 4, 2 / 5, 2 / 5⟩⟩, 1 / 10, 1 / 2, 0, 1, 1, 1⟩ : ChContinuumDruckerPrager ℚ).Set_dilatancy (-1)).dilatancy = -1 ∧ ¬ ((⟨⟨⟨⟨1000⟩, 1, 1 / 4, 2 / 5, 2 / 5⟩⟩, 1 / 10, 1 / 2, 0, 1, 1, 1⟩ : ChContinuumDruckerPrager ℚ).Set_dilatancy (-1)).ParamsValid := by
  norm_num [ChContinuumPlasticVonMises.ParamsValid, ChContinuumDruckerPrager.ParamsValid,
    ChContinuumPlasticVonMises.Set_density, ChContinuumPlasticVonMises.Set_elastic_yeld,
    ChContinuumPlasticVonMises.Set_plastic_yeld, ChContinuumPlasticVonMises.Set_flow_rate,
    ChContinuumDruckerPrager.Set_density, ChContinuumDruckerPrager.Set_alpha,
    ChContinuumDruckerPrager.Set_flow_rate, ChContinuumDruckerPrager.Set_dilatancy,
    ChContinuumMaterial.Set_density]

/-- C10, amended. Every parameter setter stores its argument, whatever it is.  On a valid
material, the material after the call is valid exactly when the argument meets the
constraint of that parameter: `Set_density x` and `Set_flow_rate x` when `0 < x`; the von
Mises `Set_elastic_yeld x` when `0 < x ≤ plastic_yeld` and `Set_plastic_yeld x` when
`elastic_yeld ≤ x`; `Set_alpha x` and `Set_dilatancy x` when `0 ≤ x`; the Drucker-Prager
`Set_elastic_yeld x` always. -/
theorem setters_preserve_ParamsValid_iff (vm : ChContinuumPlasticVonMises R)
    (dp : ChContinuumDruckerPrager R) (x : R)
    (hvm : vm.ParamsValid) (hdp : dp.ParamsValid) :
    ((vm.Set_density x).density = x ∧ ((vm.Set_density x).ParamsValid ↔ 0 < x)) ∧
    ((vm.Set_elastic_yeld x).elastic_yeld = x ∧
      ((vm.Set_elastic_yeld x).ParamsValid ↔ 0 < x ∧ x ≤ vm.plastic_yeld)) ∧
    ((vm.Set_plastic_yeld x).plastic_yeld = x ∧
      ((vm.Set_plastic_yeld x).ParamsValid ↔ vm.elastic_yeld ≤ x)) ∧
    ((vm.Set_flow_rate x).flow_rate = x ∧ ((vm.Set_flow_rate x).ParamsValid ↔ 0 < x)) ∧
    ((dp.Set_density x).density = x ∧ ((dp.Set_density x).ParamsValid ↔ 0 < x)) ∧
    ((dp.Set_elastic_yeld x).elastic_yeld = x ∧ (dp.Set_elastic_yeld x).ParamsValid) ∧
    ((dp.Set_alpha x).alpha = x ∧ ((dp.Set_alpha x).ParamsValid ↔ 0 ≤ x)) ∧
    ((dp.Set_flow_rate x).flow_rate = x ∧ ((dp.Set_flow_rate x).ParamsValid ↔ 0 < x)) ∧
    ((dp.Set_dilatancy x).dilatancy = x ∧ ((dp.Set_dilatancy x).ParamsValid ↔ 0 ≤ x)) := by
  obtain ⟨v1, v2, v3, v4⟩ := hvm
  obtain ⟨d1, d2, d3, d4⟩ := hdp
  refine ⟨⟨rfl, ?_⟩, ⟨rfl, ?_⟩, ⟨rfl, ?_⟩, ⟨rfl, ?_⟩, ⟨rfl, ?_⟩, ⟨rfl, ?_⟩, ⟨rfl, ?_⟩,
    ⟨rfl, ?_⟩, ⟨rfl, ?_⟩⟩
  · simp only [ChContinuumPlasticVonMises.ParamsValid,
      ChContinuumPlasticVonMises.Set_density, ChContinuumMaterial.Set_density]
    tauto
  · simp only [ChContinuumPlasticVonMises.ParamsValid,
      ChContinuumPlasticVonMises.Set_elastic_yeld]
    tauto
  · simp only [ChContinuumPlasticVonMises.ParamsValid,
      ChContinuumPlasticVonMises.Set_plastic_yeld]
    tauto
  · simp only [ChContinuumPlasticVonMises.ParamsValid,
      ChContinuumPlasticVonMises.Set_flow_rate]
    tauto
  · simp only [ChContinuumDruckerPrager.ParamsValid,
      ChContinuumDruckerPrager.Set_density, ChContinuumMaterial.Set_density]
    tauto
  · exact ⟨d1, d2, d3, d4⟩
  · simp only [ChContinuumDruckerPrager.ParamsValid, ChContinuumDruckerPrager.Set_alpha]
    tauto
  · simp only [ChContinuumDruckerPrager.ParamsValid,
      ChContinuumDruckerPrager.Set_flow_rate]
    tauto
  · simp only [ChContinuumDruckerPrager.ParamsValid,
      ChContinuumDruckerPrager.Set_dilatancy]
    tauto

/-- Witness for the amended C10: a valid von Mises material, a valid Drucker-Prager
material and the argument `1/20`. -/
theorem setters_preserve_ParamsValid_iff_witness :
    (⟨⟨⟨⟨1000⟩, 1, 1 / 4, 2 / 5, 2 / 5⟩⟩, 1 / 10, 1 / 5, 1⟩ : ChContinuumPlasticVonMises ℚ).ParamsValid ∧
    (⟨⟨⟨⟨1000⟩, 1, 1 / 4, 2 / 5, 2 / 5⟩⟩, 1 / 10, 1 / 2, 0, 1, 1, 1⟩ : ChContinuumDruckerPrager ℚ).ParamsValid ∧
    (((⟨⟨⟨⟨1000⟩, 1, 1 / 4, 2 / 5, 2 / 5⟩⟩, 1 / 10, 1 / 5, 1⟩ : ChContinuumPlasticVonMises ℚ).Set_density (1 / 20)).density = 1 / 20 ∧
      (((⟨⟨⟨⟨1000⟩, 1, 1 / 4, 2 / 5, 2 / 5⟩⟩, 1 / 10, 1 / 5, 1⟩ : ChContinuumPlasticVonMises ℚ).Set_density (1 / 20)).ParamsValid ↔ (0 : ℚ) < 1 / 20)) ∧
    (((⟨⟨⟨⟨1000⟩, 1, 1 / 4, 2 / 5, 2 / 5⟩⟩, 1 / 10, 1 / 5, 1⟩ : ChContinuumPlasticVonMises ℚ).Set_elastic_yeld (1 / 20)).elastic_yeld = 1 / 20 ∧
      (((⟨⟨⟨⟨1000⟩, 1, 1 / 4, 2 / 5, 2 / 5⟩⟩, 1 / 10, 1 / 5, 1⟩ : ChContinuumPlasticVonMises ℚ).Set_elastic_yeld (1 / 20)).ParamsValid ↔
        (0 : ℚ) < 1 / 20 ∧ 1 / 20 ≤ (⟨⟨⟨⟨1000⟩, 1, 1 / 4, 2 / 5, 2 / 5⟩⟩, 1 / 10, 1 / 5, 1⟩ : ChContinuumPlasticVonMises ℚ).plastic_yeld)) ∧
    (((⟨⟨⟨⟨1000⟩, 1, 1 / 4, 2 / 5, 2 / 5⟩⟩, 1 / 10, 1 / 5, 1⟩ : ChContinuumPlasticVonMises ℚ).Set_plastic_yeld (1 / 20)).plastic_yeld = 1 / 20 ∧
      (((⟨⟨⟨⟨1000⟩, 1, 1 / 4, 2 / 5, 2 / 5⟩⟩, 1 / 10, 1 / 5, 1⟩ : ChContinuumPlasticVonMises ℚ).Set_plastic_yeld (1 / 20)).ParamsValid ↔ (⟨⟨⟨⟨1000⟩, 1, 1 / 4, 2 / 5, 2 / 5⟩⟩, 1 / 10, 1 / 5, 1⟩ : ChContinuumPlasticVonMises ℚ).elastic_yeld ≤ 1 / 20)) ∧
    (((⟨⟨⟨⟨1000⟩, 1, 1 / 4, 2 / 5, 2 / 5⟩⟩, 1 / 10, 1 / 5, 1⟩ : ChContinuumPlasticVonMises ℚ).Set_flow_rate (1 / 20)).flow_rate = 1 / 20 ∧
      (((⟨⟨⟨⟨1000⟩, 1, 1 / 4, 2 / 5, 2 / 5⟩⟩, 1 / 10, 1 / 5, 1⟩ : ChContinuumPlasticVonMises ℚ).Set_flow_rate (1 / 20)).ParamsValid ↔ (0 : ℚ) < 1 / 20)) ∧
    (((⟨⟨⟨⟨1000⟩, 1, 1 / 4, 2 / 5, 2 / 5⟩⟩, 1 / 10, 1 / 2, 0, 1, 1, 1⟩ : ChContinuumDruckerPrager ℚ).Set_density (1 / 20)).density = 1 / 20 ∧
      (((⟨⟨⟨⟨1000⟩, 1, 1 / 4, 2 / 5, 2 / 5⟩⟩, 1 / 10, 1 / 2, 0, 1, 1, 1⟩ : ChContinuumDruckerPrager ℚ).Set_density (1 / 20)).ParamsValid ↔ (0 : ℚ) < 1 / 20)) ∧
    (((⟨⟨⟨⟨1000⟩, 1, 1 / 4, 2 / 5, 2 / 5⟩⟩, 1 / 10, 1 / 2, 0, 1, 1, 1⟩ : ChContinuumDruckerPrager ℚ).Set_elastic_yeld (1 / 20)).elastic_yeld = 1 / 20 ∧
      ((⟨⟨⟨⟨1000⟩, 1, 1 / 4, 2 / 5, 2 / 5⟩⟩, 1 / 10, 1 / 2, 0, 1, 1, 1⟩ : ChContinuumDruckerPrager ℚ).Set_elastic_yeld (1 / 20)).ParamsValid) ∧
    (((⟨⟨⟨⟨1000⟩, 1, 1 / 4, 2 / 5, 2 / 5⟩⟩, 1 / 10, 1 / 2, 0, 1, 1, 1⟩ : ChContinuumDruckerPrager ℚ).Set_alpha (1 / 20)).alpha = 1 / 20 ∧
      (((⟨⟨⟨⟨1000⟩, 1, 1 / 4, 2 / 5, 2 / 5⟩⟩, 1 / 10, 1 / 2, 0, 1, 1, 1⟩ : ChContinuumDruckerPrager ℚ).Set_alpha (1 / 20)).ParamsValid ↔ (0 : ℚ) ≤ 1 / 20)) ∧
    (((⟨⟨⟨⟨1000⟩, 1, 1 / 4, 2 / 5, 2 / 5⟩⟩, 1 / 10, 1 / 2, 0, 1, 1, 1⟩ : ChContinuumDruckerPrager ℚ).Set_flow_rate (1 / 20)).flow_rate = 1 / 20 ∧
      (((⟨⟨⟨⟨1000⟩, 1, 1 / 4, 2 / 5, 2 / 5⟩⟩, 1 / 10, 1 / 2, 0, 1, 1, 1⟩ : ChContinuumDruckerPrager ℚ).Set_flow_rate (1 / 20)).ParamsValid ↔ (0 : ℚ) < 1 / 20)) ∧
    (((⟨⟨⟨⟨1000⟩, 1, 1 / 4, 2 / 5, 2 / 5⟩⟩, 1 / 10, 1 / 2, 0, 1, 1, 1⟩ : ChContinuumDruckerPrager ℚ).Set_dilatancy (1 / 20)).dilatancy = 1 / 20 ∧
      (((⟨⟨⟨⟨1000⟩, 1, 1 / 4, 2 / 5, 2 / 5⟩⟩, 1 / 10, 1 / 2, 0, 1, 1, 1⟩ : ChContinuumDruckerPrager ℚ).Set_dilatancy (1 / 20)).ParamsValid ↔ (0 : ℚ) ≤ 1 / 20)) :=
  ⟨by norm_num [ChContinuumPlasticVonMises.ParamsValid],
    by norm_num [ChContinuumDruckerPrager.ParamsValid],
    setters_preserve_ParamsValid_iff _ _ (1 / 20)
      (by norm_num [ChContinuumPlasticVonMises.ParamsValid])
      (by norm_num [ChContinuumDruckerPrager.ParamsValid])⟩

/-- C13. For a fixed material, `ComputeElasticStress` is linear in the strain and
`ComputeElasticStrain` is linear in the stress: applied to the componentwise combination
`a + c * b` each gives, in every component, its value at `a` plus `c` times its value at
`b`. -/
theorem ComputeElasticStress_ComputeElasticStrain_linear (m : ChContinuumElastic R)
    (a b d0 : ChVoightTensor R) (c : R) :
    m.ComputeElasticStress d0
        ⟨a.XX + c * b.XX, a.YY + c * b.YY, a.ZZ + c * b.ZZ,
          a.XY + c * b.XY, a.XZ + c * b.XZ, a.YZ + c * b.YZ⟩
      = ⟨(m.ComputeElasticStress d0 a).XX + c * (m.ComputeElasticStress d0 b).XX,
          (m.ComputeElasticStress d0 a).YY + c * (m.ComputeElasticStress d0 b).YY,
          (m.ComputeElasticStress d0 a).ZZ + c * (m.ComputeElasticStress d0 b).ZZ,
          (m.ComputeElasticStress d0 a).XY + c * (m.ComputeElasticStress d0 b).XY,
          (m.ComputeElasticStress d0 a).XZ + c * (m.ComputeElasticStress d0 b).XZ,
          (m.ComputeElasticStress d0 a).YZ + c * (m.ComputeElasticStress d0 b).YZ⟩ ∧
    m.ComputeElasticStrain d0
        ⟨a.XX + c * b.XX, a.YY + c * b.YY, a.ZZ + c * b.ZZ,
          a.XY + c * b.XY, a.XZ + c * b.XZ, a.YZ + c * b.YZ⟩
      = ⟨(m.ComputeElasticStrain d0 a).XX + c * (m.ComputeElasticStrain d0 b).XX,
          (m.ComputeElasticStrain d0 a).YY + c * (m.ComputeElasticStrain d0 b).YY,
          (m.ComputeElasticStrain d0 a).ZZ + c * (m.ComputeElasticStrain d0 b).ZZ,
          (m.ComputeElasticStrain d0 a).XY + c * (m.ComputeElasticStrain d0 b).XY,
          (m.ComputeElasticStrain d0 a).XZ + c * (m.ComputeElasticStrain d0 b).XZ,
          (m.ComputeElasticStrain d0 a).YZ + c * (m.ComputeElasticStrain d0 b).YZ⟩ := by
  constructor
  · simp only [ChContinuumElastic.ComputeElasticStress, ChVoightTensor.mk.injEq]
    refine ⟨?_, ?_, ?_, ?_, ?_, ?_⟩ <;> ring
  · simp only [ChContinuumElastic.ComputeElasticStrain, ChVoightTensor.mk.injEq]
    refine ⟨?_, ?_, ?_, ?_, ?_, ?_⟩ <;> ring

/-- C14. Over the reals, the square of `GetEquivalentVonMises` is `3 * GetInvariant_J2`;
the quantity `I1² / 3 - I2` is never negative, so the clamp in `GetInvariant_J2` leaves
it unchanged. -/
theorem GetEquivalentVonMises_sq (t : ChVoightTensor ℝ) :
    t.GetEquivalentVonMises Real.sqrt ^ 2 = 3 * t.GetInvariant_J2 ∧
    0 ≤ t.GetInvariant_I1 ^ 2 / 3 - t.GetInvariant_I2 ∧
    t.GetInvariant_J2 = t.GetInvariant_I1 ^ 2 / 3 - t.GetInvariant_I2 := by
  have h3 : (3.0 : ℝ) = 3 := by norm_num
  have hnn : 0 ≤ t.GetInvariant_I1 ^ 2 / 3 - t.GetInvariant_I2 := by
    have h := t.J2_arg_nonneg
    rwa [h3] at h
  have hJ : t.GetInvariant_J2 = t.GetInvariant_I1 ^ 2 / 3 - t.GetInvariant_I2 := by
    rw [t.GetInvariant_J2_eq, h3]
  refine ⟨?_, hnn, hJ⟩
  unfold ChVoightTensor.GetEquivalentVonMises
  rw [t.vonMises_arg_eq, Real.sq_sqrt]
  rw [hJ]
  linarith

/-- C15. With `d` the deviatoric part of `t`, `GetInvariant_J2 t = - GetInvariant_I2 d`
and `GetInvariant_J3 t = GetInvariant_I3 d`: the J invariants computed from `I1`, `I2`,
`I3` of `t` are the second and third invariants of the deviatoric part. -/
theorem GetInvariant_J2_J3_deviatoric (t d0 : ChVoightTensor R) :
    t.GetInvariant_J2 = -(t.GetDeviatoricPart d0).GetInvariant_I2 ∧
    t.GetInvariant_J3 = (t.GetDeviatoricPart d0).GetInvariant_I3 := by
  have h3 : (3.0 : R) = 3 := by norm_num
  have h3b : (3. : R) = 3 := by norm_num
  have h1 : (1. : R) = 1 := by norm_num
  have h2 : (2. : R) = 2 := by norm_num
  have h27 : (27. : R) = 27 := by norm_num
  constructor
  · rw [t.GetInvariant_J2_eq]
    simp only [ChVoightTensor.GetDeviatoricPart, ChVoightTensor.GetVolumetricPart,
      ChVoightTensor.GetInvariant_I1, ChVoightTensor.GetInvariant_I2, h3]
    ring
  · simp only [ChVoightTensor.GetInvariant_J3, ChVoightTensor.GetDeviatoricPart,
      ChVoightTensor.GetVolumetricPart, ChVoightTensor.GetInvariant_I1,
      ChVoightTensor.GetInvariant_I2, ChVoightTensor.GetInvariant_I3, h3, h3b, h1, h2, h27]
    ring

/-- C16. With `M` the matrix written by `ConvertToMatrix`, `GetInvariant_I1` is the trace
of `M`, `GetInvariant_I2` is the sum of the three principal 2×2 minors of `M`, which is
`(trace M ^ 2 - trace (M * M)) / 2`, and `GetInvariant_I3` is the determinant of `M`. -/
theorem GetInvariants_of_matrix (t : ChVoightTensor R) (mdest : ChMatrix33 R) :
    t.GetInvariant_I1 = Matrix.trace (Matrix.of (t.ConvertToMatrix mdest)) ∧
    t.GetInvariant_I2
      = (t.ConvertToMatrix mdest 0 0 * t.ConvertToMatrix mdest 1 1
          - t.ConvertToMatrix mdest 0 1 * t.ConvertToMatrix mdest 1 0)
        + (t.ConvertToMatrix mdest 1 1 * t.ConvertToMatrix mdest 2 2
          - t.ConvertToMatrix mdest 1 2 * t.ConvertToMatrix mdest 2 1)
        + (t.ConvertToMatrix mdest 0 0 * t.ConvertToMatrix mdest 2 2
          - t.ConvertToMatrix mdest 0 2 * t.ConvertToMatrix mdest 2 0) ∧
    t.GetInvariant_I2
      = (Matrix.trace (Matrix.of (t.ConvertToMatrix mdest)) ^ 2
          - Matrix.trace (Matrix.of (t.ConvertToMatrix mdest)
              * Matrix.of (t.ConvertToMatrix mdest))) / 2 ∧
    t.GetInvariant_I3 = Matrix.det (Matrix.of (t.ConvertToMatrix mdest)) := by
  have e00 : t.ConvertToMatrix mdest 0 0 = t.XX := by
    simp [ChVoightTensor.ConvertToMatrix, ChMatrix33.set]
  have e11 : t.ConvertToMatrix mdest 1 1 = t.YY := by
    simp [ChVoightTensor.ConvertToMatrix, ChMatrix33.set]
  have e22 : t.ConvertToMatrix mdest 2 2 = t.ZZ := by
    simp [ChVoightTensor.ConvertToMatrix, ChMatrix33.set]
  have e01 : t.ConvertToMatrix mdest 0 1 = t.XY := by
    simp [ChVoightTensor.ConvertToMatrix, ChMatrix33.set]
  have e10 : t.ConvertToMatrix mdest 1 0 = t.XY := by
    simp [ChVoightTensor.ConvertToMatrix, ChMatrix33.set]
  have e02 : t.ConvertToMatrix mdest 0 2 = t.XZ := by
    simp [ChVoightTensor.ConvertToMatrix, ChMatrix33.set]
  have e20 : t.ConvertToMatrix mdest 2 0 = t.XZ := by
    simp [ChVoightTensor.ConvertToMatrix, ChMatrix33.set]
  have e12 : t.ConvertToMatrix mdest 1 2 = t.YZ := by
    simp [ChVoightTensor.ConvertToMatrix, ChMatrix33.set]
  have e21 : t.ConvertToMatrix mdest 2 1 = t.YZ := by
    simp [ChVoightTensor.ConvertToMatrix, ChMatrix33.set]
  refine ⟨?_, ?_, ?_, ?_⟩
  · rw [Matrix.trace_fin_three]
    simp only [Matrix.of_apply, e00, e11, e22, ChVoightTensor.GetInvariant_I1]
  · rw [e00, e11, e22, e01, e10, e02, e20, e12, e21]
    simp only [ChVoightTensor.GetInvariant_I2]
    ring
  · rw [Matrix.trace_fin_three, Matrix.trace_fin_three]
    simp only [Matrix.mul_apply, Fin.sum_univ_three, Matrix.of_apply, e00, e11, e22, e01,
      e10, e02, e20, e12, e21, ChVoightTensor.GetInvariant_I2]
    ring
  · rw [Matrix.det_fin_three]
    simp only [Matrix.of_apply, e00, e11, e22, e01, e10, e02, e20, e12, e21,
      ChVoightTensor.GetInvariant_I3]
    ring

/-- C17. For an elastic material with consistent constants (`E > 0`, `-1 < v < 1/2`,
`G = E/(2(1+v))`, `l = E v/((1+v)(1-2v))`), the volumetric part of the elastic stress of a
strain `e` is `3 * Get_BulkModulus` times the volumetric part of `e`, where
`Get_BulkModulus` is `E / (3 (1 - 2 v))`. -/
theorem ComputeElasticStress_volumetric (m : ChContinuumElastic R)
    (e s0 : ChVoightTensor R)
    (hE : 0 < m.E) (hv1 : -1 < m.v) (hv2 : m.v < 1 / 2)
    (hG : m.G = m.E / (2 * (1 + m.v)))
    (hl : m.l = m.E * m.v / ((1 + m.v) * (1 - 2 * m.v))) :
    (m.ComputeElasticStress s0 e).GetVolumetricPart
        = 3 * m.Get_BulkModulus * e.GetVolumetricPart ∧
    m.Get_BulkModulus = m.E / (3 * (1 - 2 * m.v)) := by
  have h1 : (1 + m.v) ≠ 0 := by linarith
  have h2 : (1 - 2 * m.v) ≠ 0 := by linarith
  have hE0 : m.E ≠ 0 := ne_of_gt hE
  have hG2 : 2 * m.G * (1 + m.v) = m.E := by rw [hG]; field_simp; ring
  have hl2 : m.l * (1 - 2 * m.v) = 2 * m.G * m.v := by rw [hl, hG]; field_simp; ring
  have hone : (1. : R) = 1 := by norm_num
  have htwo : (2. : R) = 2 := by norm_num
  have hthree : (3. : R) = 3 := by norm_num
  have hK : m.Get_BulkModulus = m.E / (3 * (1 - 2 * m.v)) := by
    simp only [ChContinuumElastic.Get_BulkModulus, hone, htwo, hthree]
  refine ⟨?_, hK⟩
  rw [hK]
  simp only [ChContinuumElastic.ComputeElasticStress, ChVoightTensor.GetVolumetricPart]
  have key : 3 * (m.E / (3 * (1 - 2 * m.v))) = 3 * m.l + 2 * m.G := by
    field_simp
    linear_combination (-9 : R) * hl2 - 3 * hG2
  rw [key]
  ring

/-- Witness for C17: a material with `E = 1`, `v = 1/4`, `G = l = 2/5` and the strain
`(1, 2, 3, 4, 5, 6)`. -/
theorem ComputeElasticStress_volumetric_witness :
    (0 : ℚ) < 1 ∧ (-1 : ℚ) < 1 / 4 ∧ (1 / 4 : ℚ) < 1 / 2 ∧
    (2 / 5 : ℚ) = 1 / (2 * (1 + 1 / 4)) ∧
    (2 / 5 : ℚ) = 1 * (1 / 4) / ((1 + 1 / 4) * (1 - 2 * (1 / 4))) ∧
    (ChVoightTensor.GetVolumetricPart
        (ChContinuumElastic.ComputeElasticStress
          (⟨⟨1000⟩, 1, 1 / 4, 2 / 5, 2 / 5⟩ : ChContinuumElastic ℚ)
          ⟨0, 0, 0, 0, 0, 0⟩ ⟨1, 2, 3, 4, 5, 6⟩)
      = 3 * ChContinuumElastic.Get_BulkModulus
            (⟨⟨1000⟩, 1, 1 / 4, 2 / 5, 2 / 5⟩ : ChContinuumElastic ℚ)
          * ChVoightTensor.GetVolumetricPart (⟨1, 2, 3, 4, 5, 6⟩ : ChVoightTensor ℚ) ∧
      ChContinuumElastic.Get_BulkModulus
          (⟨⟨1000⟩, 1, 1 / 4, 2 / 5, 2 / 5⟩ : ChContinuumElastic ℚ)
        = 1 / (3 * (1 - 2 * (1 / 4)))) :=
  ⟨by norm_num, by norm_num, by norm_num, by norm_num, by norm_num,
    ComputeElasticStress_volumetric ⟨⟨1000⟩, 1, 1 / 4, 2 / 5, 2 / 5⟩
      ⟨1, 2, 3, 4, 5, 6⟩ ⟨0, 0, 0, 0, 0, 0⟩
      (by norm_num) (by norm_num) (by norm_num) (by norm_num) (by norm_num)⟩

/-- C18. For an elastic material with consistent constants (`E > 0`, `-1 < v < 1/2`,
`G = E/(2(1+v))`, `l = E v/((1+v)(1-2v))`), computing the elastic stress of the elastic
strain of a stress tensor `s` gives back `s`, in all six components, whatever the
destination tensors held before. -/
theorem ComputeElasticStress_ComputeElasticStrain (m : ChContinuumElastic R)
    (s s0 e0 : ChVoightTensor R)
    (hE : 0 < m.E) (hv1 : -1 < m.v) (hv2 : m.v < 1 / 2)
    (hG : m.G = m.E / (2 * (1 + m.v)))
    (hl : m.l = m.E * m.v / ((1 + m.v) * (1 - 2 * m.v))) :
    m.ComputeElasticStress s0 (m.ComputeElasticStrain e0 s) = s := by
  have h1 : (1 + m.v) ≠ 0 := by linarith
  have h2 : (1 - 2 * m.v) ≠ 0 := by linarith
  have hE0 : m.E ≠ 0 := ne_of_gt hE
  have hG0 : m.G ≠ 0 := by rw [hG]; exact div_ne_zero hE0 (mul_ne_zero two_ne_zero h1)
  have hG2 : 2 * m.G * (1 + m.v) = m.E := by rw [hG]; field_simp; ring
  have hl2 : m.l * (1 - 2 * m.v) = 2 * m.G * m.v := by rw [hl, hG]; field_simp; ring
  have hone : (1. : R) = 1 := by norm_num
  have hhalf : (0.5 : R) = 1 / 2 := by norm_num
  obtain ⟨sxx, syy, szz, sxy, sxz, syz⟩ := s
  simp only [ChContinuumElastic.ComputeElasticStrain,
    ChContinuumElastic.ComputeElasticStress, ChVoightTensor.mk.injEq, hone, hhalf]
  refine ⟨?_, ?_, ?_, ?_, ?_, ?_⟩
  · field_simp
    linear_combination (sxx + syy + szz) * hl2 + sxx * hG2
  · field_simp
    linear_combination (sxx + syy + szz) * hl2 + syy * hG2
  · field_simp
    linear_combination (sxx + syy + szz) * hl2 + szz * hG2
  · field_simp
    ring
  · field_simp
    ring
  · field_simp
    ring

/-- Witness for C18: a material with `E = 1`, `v = 1/4`, `G = l = 2/5` and the stress
`(6, 5, 4, 3, 2, 1)`. -/
theorem ComputeElasticStress_ComputeElasticStrain_witness :
    (0 : ℚ) < 1 ∧ (-1 : ℚ) < 1 / 4 ∧ (1 / 4 : ℚ) < 1 / 2 ∧
    (2 / 5 : ℚ) = 1 / (2 * (1 + 1 / 4)) ∧
    (2 / 5 : ℚ) = 1 * (1 / 4) / ((1 + 1 / 4) * (1 - 2 * (1 / 4))) ∧
    ChContinuumElastic.ComputeElasticStress (⟨⟨1000⟩, 1, 1 / 4, 2 / 5, 2 / 5⟩ : ChContinuumElastic ℚ)
      ⟨0, 0, 0, 0, 0, 0⟩
      (ChContinuumElastic.ComputeElasticStrain ⟨⟨1000⟩, 1, 1 / 4, 2 / 5, 2 / 5⟩
        ⟨0, 0, 0, 0, 0, 0⟩ ⟨6, 5, 4, 3, 2, 1⟩) = ⟨6, 5, 4, 3, 2, 1⟩ :=
  ⟨by norm_num, by norm_num, by norm_num, by norm_num, by norm_num,
    ComputeElasticStress_ComputeElasticStrain ⟨⟨1000⟩, 1, 1 / 4, 2 / 5, 2 / 5⟩
      ⟨6, 5, 4, 3, 2, 1⟩ ⟨0, 0, 0, 0, 0, 0⟩ ⟨0, 0, 0, 0, 0, 0⟩
      (by norm_num) (by norm_num) (by norm_num) (by norm_num) (by norm_num)⟩

/-- C19. Over the reals, `GetEquivalentVonMises` is never negative; it has the same
value on the deviatoric part of `t` and on `t` with any `p` added to `XX`, `YY` and `ZZ`;
and it is `0` exactly when `XX = YY = ZZ` and `XY = XZ = YZ = 0`. -/
theorem GetEquivalentVonMises_nonneg_deviatoric_zero (t d0 : ChVoightTensor ℝ) (p : ℝ) :
    0 ≤ t.GetEquivalentVonMises Real.sqrt ∧
    (t.GetDeviatoricPart d0).GetEquivalentVonMises Real.sqrt
      = t.GetEquivalentVonMises Real.sqrt ∧
    ChVoightTensor.GetEquivalentVonMises Real.sqrt
        ⟨t.XX + p, t.YY + p, t.ZZ + p, t.XY, t.XZ, t.YZ⟩
      = t.GetEquivalentVonMises Real.sqrt ∧
    (t.GetEquivalentVonMises Real.sqrt = 0 ↔
      t.XX = t.YY ∧ t.YY = t.ZZ ∧ t.XY = 0 ∧ t.XZ = 0 ∧ t.YZ = 0) := by
  have h3 : (3.0 : ℝ) = 3 := by norm_num
  have hhalf : (0.5 : ℝ) = 1 / 2 := by norm_num
  refine ⟨Real.sqrt_nonneg _, ?_, ?_, ?_⟩
  · simp only [ChVoightTensor.GetEquivalentVonMises, ChVoightTensor.GetDeviatoricPart]
    congr 1
    ring
  · simp only [ChVoightTensor.GetEquivalentVonMises]
    congr 1
    ring
  · have key : ∀ A B C x y z : ℝ, 0 ≤ A → 0 ≤ B → 0 ≤ C → 0 ≤ x → 0 ≤ y → 0 ≤ z →
        1 / 2 * (A + B + C) + 3 * (x + y + z) = 0 →
        A = 0 ∧ B = 0 ∧ x = 0 ∧ y = 0 ∧ z = 0 := by
      intro A B C x y z hA hB hC hx hy hz h
      refine ⟨?_, ?_, ?_, ?_, ?_⟩ <;> linarith
    have hA := sq_nonneg (t.XX - t.YY)
    have hB := sq_nonneg (t.YY - t.ZZ)
    have hC := sq_nonneg (t.ZZ - t.XX)
    have hx := mul_self_nonneg t.XY
    have hy := mul_self_nonneg t.XZ
    have hz := mul_self_nonneg t.YZ
    have hnn : 0 ≤ 0.5 * ((t.XX - t.YY) ^ 2 + (t.YY - t.ZZ) ^ 2 + (t.ZZ - t.XX) ^ 2)
        + 3.0 * (t.XY * t.XY + t.XZ * t.XZ + t.YZ * t.YZ) := by
      rw [h3, hhalf]
      linarith
    unfold ChVoightTensor.GetEquivalentVonMises
    rw [Real.sqrt_eq_zero hnn, h3, hhalf]
    constructor
    · intro h
      obtain ⟨a1, a2, a3, a4, a5⟩ := key _ _ _ _ _ _ hA hB hC hx hy hz h
      refine ⟨?_, ?_, mul_self_eq_zero.mp a3, mul_self_eq_zero.mp a4,
        mul_self_eq_zero.mp a5⟩
      · exact sub_eq_zero.mp (pow_eq_zero_iff two_ne_zero |>.mp a1)
      · exact sub_eq_zero.mp (pow_eq_zero_iff two_ne_zero |>.mp a2)
    · rintro ⟨e1, e2, e3, e4, e5⟩
      rw [e1, e2, e3, e4, e5]
      ring

/-- C11. On an elastic material (`E > 0`), an accepted call of `Set_E`, `Set_v` or
`Set_G` leaves constants with `G = E/(2(1+v))` and `l = E v/((1+v)(1-2v))`: `Set_E` stores
the given `E` and keeps `v`, `Set_v` stores the given `v` and keeps `E`, and `Set_G` keeps
`E`, stores the given `G` and back-solves `v = E/(2G) - 1`.  Moreover a material whose
constants satisfy the two relations still satisfies them after any call of a setter,
accepted or not. -/
theorem Set_E_Set_v_Set_G_consistent (m : ChContinuumElastic R) (e v g : R)
    (hE : 0 < m.E) (he : (m.Set_E e).1 = true) (hv : (m.Set_v v).1 = true)
    (hg : (m.Set_G g).1 = true) :
    ((m.Set_E e).2.E = e ∧ (m.Set_E e).2.v = m.v ∧ (m.Set_E e).2.Consistent) ∧
    ((m.Set_v v).2.E = m.E ∧ (m.Set_v v).2.v = v ∧ (m.Set_v v).2.Consistent) ∧
    ((m.Set_G g).2.E = m.E ∧ (m.Set_G g).2.G = g ∧
      (m.Set_G g).2.v = m.E / (2 * g) - 1 ∧ (m.Set_G g).2.Consistent) ∧
    (m.Consistent → ∀ x : R, (m.Set_E x).2.Consistent ∧ (m.Set_v x).2.Consistent ∧
      (m.Set_G x).2.Consistent) := by
  have hE0 : m.E ≠ 0 := ne_of_gt hE
  have hSE : ∀ x : R, 0 < x → (m.Set_E x).2.Consistent := by
    intro x hx
    rw [m.Set_E_of_pos x hx]
    exact ⟨rfl, rfl⟩
  have hSv : ∀ x : R, x ≠ 1 / 2 → x ≠ -1 → (m.Set_v x).2.Consistent := by
    intro x h1 h2
    rw [m.Set_v_of_ne x h1 h2]
    exact ⟨rfl, rfl⟩
  have hSG : ∀ x : R, 0 < x → m.E / (2 * x) - 1 ≠ 1 / 2 → m.E / (2 * x) - 1 ≠ -1 →
      (m.Set_G x).2.Consistent := by
    intro x hx hx1 hx2
    rw [m.Set_G_of_pos x hx hx1 hx2]
    refine ⟨?_, rfl⟩
    have hx0 : x ≠ 0 := ne_of_gt hx
    show x = m.E / (2 * (1 + (m.E / (2 * x) - 1)))
    field_simp
    ring
  have he1 := (m.Set_E_fst e).mp he
  have hv1 := (m.Set_v_fst v).mp hv
  have hg1 := (m.Set_G_fst g).mp hg
  refine ⟨⟨?_, ?_, hSE e he1⟩, ⟨?_, ?_, hSv v hv1.1 hv1.2⟩,
    ⟨?_, ?_, ?_, hSG g hg1.1 hg1.2.1 hg1.2.2⟩, ?_⟩
  · rw [m.Set_E_of_pos e he1]
  · rw [m.Set_E_of_pos e he1]
  · rw [m.Set_v_of_ne v hv1.1 hv1.2]
  · rw [m.Set_v_of_ne v hv1.1 hv1.2]
  · rw [m.Set_G_of_pos g hg1.1 hg1.2.1 hg1.2.2]
  · rw [m.Set_G_of_pos g hg1.1 hg1.2.1 hg1.2.2]
  · rw [m.Set_G_of_pos g hg1.1 hg1.2.1 hg1.2.2]
  · intro hc x
    refine ⟨?_, ?_, ?_⟩
    · rcases le_or_lt x 0 with h | h
      · rw [m.Set_E_of_le x h]
        exact hc
      · exact hSE x h
    · by_cases h : x = 1 / 2 ∨ x = -1
      · rw [m.Set_v_of_degenerate x h]
        exact hc
      · rw [not_or] at h
        exact hSv x h.1 h.2
    · rcases le_or_lt x 0 with h | h
      · rw [m.Set_G_of_le x h]
        exact hc
      · by_cases hd : m.E / (2 * x) - 1 = 1 / 2 ∨ m.E / (2 * x) - 1 = -1
        · rw [m.Set_G_of_degenerate x h hd]
          exact hc
        · rw [not_or] at hd
          exact hSG x h hd.1 hd.2

/-- Witness for C11: the material with `E = 1`, `v = 1/4`, `G = l = 2/5`, and the calls
`Set_E 3`, `Set_v (1/3)` and `Set_G 2`. -/
theorem Set_E_Set_v_Set_G_consistent_witness :
    (0 : ℚ) < (⟨⟨1000⟩, 1, 1 / 4, 2 / 5, 2 / 5⟩ : ChContinuumElastic ℚ).E ∧
    ((⟨⟨1000⟩, 1, 1 / 4, 2 / 5, 2 / 5⟩ : ChContinuumElastic ℚ).Set_E 3).1 = true ∧
    ((⟨⟨1000⟩, 1, 1 / 4, 2 / 5, 2 / 5⟩ : ChContinuumElastic ℚ).Set_v (1 / 3)).1 = true ∧
    ((⟨⟨1000⟩, 1, 1 / 4, 2 / 5, 2 / 5⟩ : ChContinuumElastic ℚ).Set_G 2).1 = true ∧
    (((⟨⟨1000⟩, 1, 1 / 4, 2 / 5, 2 / 5⟩ : ChContinuumElastic ℚ).Set_E 3).2.E = 3 ∧
      ((⟨⟨1000⟩, 1, 1 / 4, 2 / 5, 2 / 5⟩ : ChContinuumElastic ℚ).Set_E 3).2.v
        = (⟨⟨1000⟩, 1, 1 / 4, 2 / 5, 2 / 5⟩ : ChContinuumElastic ℚ).v ∧
      ((⟨⟨1000⟩, 1, 1 / 4, 2 / 5, 2 / 5⟩ : ChContinuumElastic ℚ).Set_E 3).2.Consistent) ∧
    (((⟨⟨1000⟩, 1, 1 / 4, 2 / 5, 2 / 5⟩ : ChContinuumElastic ℚ).Set_v (1 / 3)).2.E
        = (⟨⟨1000⟩, 1, 1 / 4, 2 / 5, 2 / 5⟩ : ChContinuumElastic ℚ).E ∧
      ((⟨⟨1000⟩, 1, 1 / 4, 2 / 5, 2 / 5⟩ : ChContinuumElastic ℚ).Set_v (1 / 3)).2.v = 1 / 3 ∧
      ((⟨⟨1000⟩, 1, 1 / 4, 2 / 5, 2 / 5⟩ : ChContinuumElastic ℚ).Set_v (1 / 3)).2.Consistent) ∧
    (((⟨⟨1000⟩, 1, 1 / 4, 2 / 5, 2 / 5⟩ : ChContinuumElastic ℚ).Set_G 2).2.E
        = (⟨⟨1000⟩, 1, 1 / 4, 2 / 5, 2 / 5⟩ : ChContinuumElastic ℚ).E ∧
      ((⟨⟨1000⟩, 1, 1 / 4, 2 / 5, 2 / 5⟩ : ChContinuumElastic ℚ).Set_G 2).2.G = 2 ∧
      ((⟨⟨1000⟩, 1, 1 / 4, 2 / 5, 2 / 5⟩ : ChContinuumElastic ℚ).Set_G 2).2.v
        = (⟨⟨1000⟩, 1, 1 / 4, 2 / 5, 2 / 5⟩ : ChContinuumElastic ℚ).E / (2 * 2) - 1 ∧
      ((⟨⟨1000⟩, 1, 1 / 4, 2 / 5, 2 / 5⟩ : ChContinuumElastic ℚ).Set_G 2).2.Consistent) :=
  ⟨by norm_num, by norm_num [ChContinuumElastic.Set_E],
    by norm_num [ChContinuumElastic.Set_v], by norm_num [ChContinuumElastic.Set_G],
    (Set_E_Set_v_Set_G_consistent ⟨⟨1000⟩, 1, 1 / 4, 2 / 5, 2 / 5⟩ 3 (1 / 3) 2
      (by norm_num) (by norm_num [ChContinuumElastic.Set_E])
      (by norm_num [ChContinuumElastic.Set_v])
      (by norm_num [ChContinuumElastic.Set_G])).1,
    (Set_E_Set_v_Set_G_consistent ⟨⟨1000⟩, 1, 1 / 4, 2 / 5, 2 / 5⟩ 3 (1 / 3) 2
      (by norm_num) (by norm_num [ChContinuumElastic.Set_E])
      (by norm_num [ChContinuumElastic.Set_v])
      (by norm_num [ChContinuumElastic.Set_G])).2.1,
    (Set_E_Set_v_Set_G_consistent ⟨⟨1000⟩, 1, 1 / 4, 2 / 5, 2 / 5⟩ 3 (1 / 3) 2
      (by norm_num) (by norm_num [ChContinuumElastic.Set_E])
      (by norm_num [ChContinuumElastic.Set_v])
      (by norm_num [ChContinuumElastic.Set_G])).2.2.1⟩

/-- C12. `Set_E` with `E ≤ 0`, `Set_v` with `v = 1/2` or `v = -1` and `Set_G` with `G ≤ 0`
are rejected and leave the whole material, so `E`, `v`, `G` and `l`, as it was.  Every
material reached through any sequence of setter calls from one with `E > 0`, `v ≠ -1` and
`v ≠ 1/2` still has `E > 0`, `v ≠ -1` and `v ≠ 1/2`, so the divisor `3 (1 - 2 v)` of
`Get_BulkModulus`, the divisor `1 + v` of `Get_WaveModulus` and the divisor
`(1 + v) (1 - 2 v)` behind `Get_l` are never zero. -/
theorem setters_reject_no_division_by_zero (m : ChContinuumElastic R)
    (calls : List (SetterCall R))
    (hE : 0 < m.E) (hv1 : m.v ≠ -1) (hv2 : m.v ≠ 1 / 2) :
    (∀ x : R, x ≤ 0 → ∀ m0 : ChContinuumElastic R, m0.Set_E x = (false, m0)) ∧
    (∀ m0 : ChContinuumElastic R, m0.Set_v (1 / 2) = (false, m0)) ∧
    (∀ m0 : ChContinuumElastic R, m0.Set_v (-1) = (false, m0)) ∧
    (∀ x : R, x ≤ 0 → ∀ m0 : ChContinuumElastic R, m0.Set_G x = (false, m0)) ∧
    0 < (m.run calls).E ∧ (m.run calls).v ≠ -1 ∧ (m.run calls).v ≠ 1 / 2 ∧
    3. * (1. - 2. * (m.run calls).v) ≠ 0 ∧
    1. + (m.run calls).v ≠ 0 ∧
    (1 + (m.run calls).v) * (1 - 2 * (m.run calls).v) ≠ 0 := by
  have hone : (1. : R) = 1 := by norm_num
  have htwo : (2. : R) = 2 := by norm_num
  have hthree : (3. : R) = 3 := by norm_num
  obtain ⟨h1, h2, h3⟩ := ChContinuumElastic.run_nondegenerate calls m hE hv1 hv2
  have d1 : 1 + (m.run calls).v ≠ 0 := by
    intro h
    exact h2 (by linarith)
  have d2 : 1 - 2 * (m.run calls).v ≠ 0 := by
    intro h
    exact h3 (by linarith)
  refine ⟨fun x hx m0 => m0.Set_E_of_le x hx,
    fun m0 => m0.Set_v_of_degenerate _ (Or.inl rfl),
    fun m0 => m0.Set_v_of_degenerate _ (Or.inr rfl),
    fun x hx m0 => m0.Set_G_of_le x hx, h1, h2, h3, ?_, ?_, mul_ne_zero d1 d2⟩
  · rw [hone, htwo, hthree]
    exact mul_ne_zero three_ne_zero d2
  · rw [hone]
    exact d1

/-- Witness for C12: from the material with `E = 1`, `v = 1/4`, `G = l = 2/5`, the calls
`Set_E 3`, `Set_G 1` (whose back-solved `v` would be `1/2`, so it is rejected), `Set_v 2`
and `Set_E (-1)` (rejected). -/
theorem setters_reject_no_division_by_zero_witness :
    (0 : ℚ) < (⟨⟨1000⟩, 1, 1 / 4, 2 / 5, 2 / 5⟩ : ChContinuumElastic ℚ).E ∧
    (⟨⟨1000⟩, 1, 1 / 4, 2 / 5, 2 / 5⟩ : ChContinuumElastic ℚ).v ≠ -1 ∧
    (⟨⟨1000⟩, 1, 1 / 4, 2 / 5, 2 / 5⟩ : ChContinuumElastic ℚ).v ≠ 1 / 2 ∧
    (0 < ((⟨⟨1000⟩, 1, 1 / 4, 2 / 5, 2 / 5⟩ : ChContinuumElastic ℚ).run
        [SetterCall.Set_E 3, SetterCall.Set_G 1, SetterCall.Set_v 2,
          SetterCall.Set_E (-1)]).E ∧
      ((⟨⟨1000⟩, 1, 1 / 4, 2 / 5, 2 / 5⟩ : ChContinuumElastic ℚ).run
        [SetterCall.Set_E 3, SetterCall.Set_G 1, SetterCall.Set_v 2,
          SetterCall.Set_E (-1)]).v ≠ -1 ∧
      ((⟨⟨1000⟩, 1, 1 / 4, 2 / 5, 2 / 5⟩ : ChContinuumElastic ℚ).run
        [SetterCall.Set_E 3, SetterCall.Set_G 1, SetterCall.Set_v 2,
          SetterCall.Set_E (-1)]).v ≠ 1 / 2 ∧
      3. * (1. - 2. * ((⟨⟨1000⟩, 1, 1 / 4, 2 / 5, 2 / 5⟩ : ChContinuumElastic ℚ).run
        [SetterCall.Set_E 3, SetterCall.Set_G 1, SetterCall.Set_v 2,
          SetterCall.Set_E (-1)]).v) ≠ 0 ∧
      1. + ((⟨⟨1000⟩, 1, 1 / 4, 2 / 5, 2 / 5⟩ : ChContinuumElastic ℚ).run
        [SetterCall.Set_E 3, SetterCall.Set_G 1, SetterCall.Set_v 2,
          SetterCall.Set_E (-1)]).v ≠ 0 ∧
      (1 + ((⟨⟨1000⟩, 1, 1 / 4, 2 / 5, 2 / 5⟩ : ChContinuumElastic ℚ).run
        [SetterCall.Set_E 3, SetterCall.Set_G 1, SetterCall.Set_v 2,
          SetterCall.Set_E (-1)]).v)
        * (1 - 2 * ((⟨⟨1000⟩, 1, 1 / 4, 2 / 5, 2 / 5⟩ : ChContinuumElastic ℚ).run
          [SetterCall.Set_E 3, SetterCall.Set_G 1, SetterCall.Set_v 2,
            SetterCall.Set_E (-1)]).v) ≠ 0) :=
  ⟨by norm_num, by norm_num, by norm_num,
    (setters_reject_no_division_by_zero ⟨⟨1000⟩, 1, 1 / 4, 2 / 5, 2 / 5⟩
      [SetterCall.Set_E 3, SetterCall.Set_G 1, SetterCall.Set_v 2, SetterCall.Set_E (-1)]
      (by norm_num) (by norm_num) (by norm_num)).2.2.2.2⟩

end Theorems

end chrono
